import Mathlib

/-!
Shallow embedding of the Launcher flight scheduler (Python sources under
src/), developed to settle the specification claims C1-C10.

Modeling conventions:
* Python floats (positions, distances, speeds) are idealized as real
  numbers; datetimes and timedeltas are real (respectively rational, for
  the allocator layer that never touches geometry) numbers of seconds.
* Python int() truncation is pyInt, round() is pyRound (round half to
  even, as Python does), and the source pattern
  str(x).split, int of the two parts (seconds/microseconds) is truncMicro
  (truncation of the decimal expansion at microsecond precision is modeled
  as flooring at 10^-6).
* uuid4 identifiers are modeled by a fresh natural-number counter.
* Python exceptions (KeyError, IndexError, AssertionError, AllocationError
  escaping an operation) are modeled with Option / explicit outcome types.
-/

namespace Launcher

/-- Python int(x) truncates toward zero (tools are applied to nonnegative
quotients in the source, where this is the floor). -/
noncomputable def pyInt (x : ℝ) : ℤ := if 0 ≤ x then ⌊x⌋ else ⌈x⌉

/-- Python round(x) rounds half to even. -/
noncomputable def pyRound (x : ℝ) : ℤ :=
  if x - ⌊x⌋ < 1/2 then ⌊x⌋
  else if 1/2 < x - ⌊x⌋ then ⌊x⌋ + 1
  else if ⌊x⌋ % 2 = 0 then ⌊x⌋ else ⌊x⌋ + 1

/-- Model of the source idiom that renders a float number of seconds as a
string and keeps the integer part and the first six decimals: the value is
truncated at microsecond precision. -/
noncomputable def truncMicro (x : ℝ) : ℝ := (⌊x * 1000000⌋ : ℝ) / 1000000

/-- without_microseconds (tools.py): timedelta(seconds=round(delta.total_seconds())). -/
noncomputable def without_microseconds (delta : ℝ) : ℝ := (pyRound delta : ℝ)

/-- A cartesian position (the source uses [x, y, z] lists of floats). -/
structure Pos where
  x : ℝ
  y : ℝ
  z : ℝ

/-- distance_between (tools.py): sqrt of the sum of squared absolute
component differences. -/
noncomputable def distance_between (a b : Pos) : ℝ :=
  Real.sqrt (|a.x - b.x| ^ 2 + |a.y - b.y| ^ 2 + |a.z - b.z| ^ 2)

/-- find_middle_position_by_ratio (tools.py), componentwise a + (b-a)*r. -/
def find_middle_position (a b : Pos) (r : ℝ) : Pos :=
  ⟨a.x + (b.x - a.x) * r, a.y + (b.y - a.y) * r, a.z + (b.z - a.z) * r⟩

/-- The position directly above p at height h (the towers' waiting-point
displacement used by stretch_flight_plan). -/
def Pos.liftZ (p : Pos) (h : ℝ) : Pos := ⟨p.x, p.y, p.z + h⟩

/-- Helper for pySplitSpace: cut the character list at every single
space, keeping empty pieces, as Python str.split(space) does. -/
def pySplitAux : List Char → List Char → List (List Char)
  | [], cur => [cur.reverse]
  | c :: rest, cur =>
    if c = ' ' then cur.reverse :: pySplitAux rest []
    else pySplitAux rest (c :: cur)

/-- Python s.split(single space), used by the action-token predicates. -/
def pySplitSpace (s : String) : List String :=
  (pySplitAux s.toList []).map fun cs => String.mk cs

/-- BotSchema (bot_schema.py): model name, type, flight_time (s), speed (m/s). -/
structure BotSchema where
  model : String
  bot_type : String
  flight_time : ℤ
  speed : ℤ

/-- Waypoint (waypoint.py / leg_waypoint.py / action_waypoint.py): a leg
with from/to positions, or an action label with a duration and an optional
position filled in later. Identifiers generated by uuid4 in the source are
modeled as the empty string for machine-generated waypoints. Start/end
times are optional (set by the timing approximations). -/
inductive Waypoint where
  | leg (fromPos toPos : Pos) (id : String) (generated : Bool)
        (startTime endTime : Option ℝ)
  | action (act : String) (dur : ℝ) (id : String) (position : Option Pos)
        (generated : Bool) (startTime endTime : Option ℝ)

namespace Waypoint

def is_leg : Waypoint → Bool
  | leg .. => true
  | action .. => false

def is_action : Waypoint → Bool
  | leg .. => false
  | action .. => true

/-- Waypoint.from_pos asserts is_leg in the source; the action case is
unreachable junk here. -/
def from_pos : Waypoint → Pos
  | leg p _ _ _ _ _ => p
  | action _ _ _ q _ _ _ => q.getD ⟨0, 0, 0⟩

def to_pos : Waypoint → Pos
  | leg _ p _ _ _ _ => p
  | action _ _ _ q _ _ _ => q.getD ⟨0, 0, 0⟩

def wid : Waypoint → String
  | leg _ _ i _ _ _ => i
  | action _ _ i _ _ _ _ => i

def startTime : Waypoint → Option ℝ
  | leg _ _ _ _ s _ => s
  | action _ _ _ _ _ s _ => s

def endTime : Waypoint → Option ℝ
  | leg _ _ _ _ _ e => e
  | action _ _ _ _ _ _ e => e

/-- The action label; legs carry none in the source (self.action = None). -/
def actLabel : Waypoint → String
  | leg .. => ""
  | action a _ _ _ _ _ _ => a

/-- The action duration (legs have none; junk 0 for them). -/
def dur : Waypoint → ℝ
  | leg .. => 0
  | action _ d _ _ _ _ _ => d

/-- ActionWaypoint.is_being_recharged: token membership in the label split
on single spaces. The base-class fallback for legs (action is None) is
false. -/
def is_being_recharged : Waypoint → Bool
  | leg .. => false
  | action a _ _ _ _ _ _ => (pySplitSpace a).contains "being_recharged"

/-- ActionWaypoint.is_giving_recharge, token membership. -/
def is_giving_recharge : Waypoint → Bool
  | leg .. => false
  | action a _ _ _ _ _ _ => (pySplitSpace a).contains "giving_recharge"

/-- ActionWaypoint.is_payload_action, token membership. -/
def is_payload_action : Waypoint → Bool
  | leg .. => false
  | action a _ _ _ _ _ _ => (pySplitSpace a).contains "payload"

/-- Assign both times (the timing passes mutate start_time and end_time). -/
def setTimes : Waypoint → ℝ → ℝ → Waypoint
  | leg a b i g _ _, s, e => leg a b i g (some s) (some e)
  | action a d i p g _ _, s, e => action a d i p g (some s) (some e)

/-- Overwrite an action duration (legs unchanged). -/
def setDur : Waypoint → ℝ → Waypoint
  | leg a b i g s e, _ => leg a b i g s e
  | action a _ i p g s e, d => action a d i p g s e

/-- Overwrite the destination of a leg (actions unchanged). -/
def setLegTo : Waypoint → Pos → Waypoint
  | leg a _ i g s e, p => leg a p i g s e
  | action a d i q g s e, _ => action a d i q g s e

/-- Overwrite the origin of a leg (actions unchanged). -/
def setLegFrom : Waypoint → Pos → Waypoint
  | leg _ b i g s e, p => leg p b i g s e
  | action a d i q g s e, _ => action a d i q g s e

/-- Overwrite the optional position of an action (legs unchanged). -/
def setPosition : Waypoint → Pos → Waypoint
  | leg a b i g s e, _ => leg a b i g s e
  | action a d i _ g s e, p => action a d i (some p) g s e

end Waypoint

/-- FlightPlanMeta (flight_plan_meta.py); the scheduler stores a BotSchema
object in the bot_model slot. -/
structure FlightPlanMeta where
  bot_id : Option String := none
  bot_model : Option BotSchema := none
  payload_id : Option String := none
  payload_model : Option String := none

/-- FlightPlan (flight_plan.py): ordered waypoints plus towers and meta. -/
structure FlightPlan where
  waypoints : List Waypoint
  starting_tower : String
  finishing_tower : String
  id : String
  meta : Option FlightPlanMeta := none

namespace FlightPlan

/-- FlightPlan.refuel_waypoints: the action waypoints whose label EQUALS
the constant being_recharged (string equality, not token membership). -/
def refuel_waypoints (fp : FlightPlan) : List Waypoint :=
  fp.waypoints.filter fun w => w.is_action && (w.actLabel == "being_recharged")

/-- FlightPlan.giving_refuel_waypoint: the first action whose label equals
giving_recharge. -/
def giving_refuel_waypoint (fp : FlightPlan) : Option Waypoint :=
  fp.waypoints.find? fun w => w.is_action && (w.actLabel == "giving_recharge")

/-- FlightPlan.total_distance: the loop overwrites the accumulator with
each leg's length instead of summing, so the result is the length of the
last leg (0 if there is none). The source's early return of None is dead
code: it tests the method object is_definite, which is always truthy. -/
noncomputable def total_distance (fp : FlightPlan) : ℝ :=
  fp.waypoints.foldl
    (fun acc w => if w.is_leg then distance_between w.from_pos w.to_pos else acc) 0

/-- FlightPlan.start_time: waypoints[0].start_time (none on an empty plan,
where the source raises IndexError). -/
def start_time (fp : FlightPlan) : Option ℝ :=
  fp.waypoints.head?.bind Waypoint.startTime

/-- FlightPlan.end_time: waypoints[-1].end_time. -/
def end_time (fp : FlightPlan) : Option ℝ :=
  fp.waypoints.getLast?.bind Waypoint.endTime

end FlightPlan

/-! ### ResourceAllocator (resource_allocator.py), over rational times -/

/-- An allocation entry: id, half-open-by-intent [from, to) interval and a
free-form blob (modeled as string pairs). -/
structure Allocation where
  aid : ℕ
  from_datetime : ℚ
  to_datetime : ℚ
  blob : List (String × String)
deriving DecidableEq

/-- Allocator state: the resource_id -> allocations dict (insertion
order), with a counter standing in for uuid4 allocation ids. -/
structure ResourceAllocator where
  allocator : List (String × List Allocation)
  next_id : ℕ
deriving DecidableEq

/-- Result of ResourceAllocator.allocate_resource: KeyError on an unknown
resource, AllocationError on the overlap check, otherwise the new
allocation id and the updated state. -/
inductive AllocOutcome where
  | key_missing
  | alloc_error
  | allocated (aid : ℕ) (state : ResourceAllocator)
deriving DecidableEq

/-- Result of the wrappers around the plain allocator (the updated state
is returned separately). -/
inductive AllocResult where
  | key_missing
  | alloc_error
  | allocated (aid : ℕ)
deriving DecidableEq

namespace ResourceAllocator

def allocationsOf (ra : ResourceAllocator) (rid : String) : Option (List Allocation) :=
  (ra.allocator.find? fun p => p.1 == rid).map Prod.snd

/-- The rejection test of allocate_resource, verbatim from the source:
to > a.from and to <= a.to, or from >= a.from and from < a.to. -/
def rejects (f t : ℚ) (a : Allocation) : Bool :=
  (a.from_datetime < t && t ≤ a.to_datetime) || (a.from_datetime ≤ f && f < a.to_datetime)

/-- ResourceAllocator.allocate_resource: scan the resource's allocations
(reversed in the source, which does not affect the outcome of the
existential check), raise AllocationError if any rejects, else append the
new allocation. -/
def allocate_resource (ra : ResourceAllocator) (rid : String) (f t : ℚ)
    (blob : List (String × String)) : AllocOutcome :=
  match ra.allocationsOf rid with
  | none => .key_missing
  | some allocs =>
    if allocs.any (rejects f t) then .alloc_error
    else
      .allocated ra.next_id
        { allocator := ra.allocator.map fun p =>
            if p.1 == rid then (p.1, p.2 ++ [⟨ra.next_id, f, t, blob⟩]) else p
          next_id := ra.next_id + 1 }

/-- Helper for delete_allocation: remove the first allocation with the
given id, walking the resources in order and stopping after a removal. -/
def deleteFirst : List (String × List Allocation) → ℕ → List (String × List Allocation)
  | [], _ => []
  | (rid, allocs) :: rest, aid =>
    if allocs.any fun a => a.aid == aid then
      (rid, allocs.eraseP fun a => a.aid == aid) :: rest
    else
      (rid, allocs) :: deleteFirst rest aid

/-- ResourceAllocator.delete_allocation: pop the matching allocation if it
exists (idempotent otherwise). -/
def delete_allocation (ra : ResourceAllocator) (aid : ℕ) : ResourceAllocator :=
  { ra with allocator := deleteFirst ra.allocator aid }

end ResourceAllocator

/-! ### IntervalResourceAllocator (interval_resource_allocator.py) -/

/-- Model of strptime(date.strftime(day-month-year)): the midnight of the
calendar day containing t (t in seconds from the epoch). -/
def midnightOf (t : ℚ) : ℚ := (⌊t / 86400⌋ : ℤ) * 86400

/-- IntervalResourceAllocator: a fixed interval_duration, the derived
daily interval count, the days dict (midnight -> used intervals) and the
inherited plain allocator. -/
structure IntervalResourceAllocator where
  interval_duration : ℚ
  daily_intervals : ℕ
  days : List (ℚ × List ℕ)
  ra : ResourceAllocator
deriving DecidableEq

namespace IntervalResourceAllocator

/-- The constructor computes daily_intervals = timedelta(days=1) //
interval_duration. -/
def mk0 (d : ℚ) (ra : ResourceAllocator) : IntervalResourceAllocator :=
  { interval_duration := d
    daily_intervals := (⌊86400 / d⌋).toNat
    days := []
    ra := ra }

/-- The from/to instants that allocate_resource passes to the parent
allocator, verbatim: from = midnight + interval * d, then
to = from + (interval + 1) * d. -/
def allocWindow (ia : IntervalResourceAllocator) (date : ℚ) (interval : ℕ) : ℚ × ℚ :=
  (midnightOf date + interval * ia.interval_duration,
   midnightOf date + interval * ia.interval_duration
     + (interval + 1) * ia.interval_duration)

/-- IntervalResourceAllocator.allocate_resource: delegate to the parent
with the computed window, and record the interval in the days dict. -/
def allocate_resource (ia : IntervalResourceAllocator) (rid : String) (date : ℚ)
    (interval : ℕ) (blob : List (String × String)) :
    AllocResult × IntervalResourceAllocator :=
  let w := ia.allocWindow date interval
  match ia.ra.allocate_resource rid w.1 w.2 (("interval", toString interval) :: blob) with
  | .key_missing => (.key_missing, ia)
  | .alloc_error => (.alloc_error, ia)
  | .allocated aid ra2 =>
    let key := midnightOf date
    let days2 :=
      if ia.days.any fun p => p.1 == key then
        ia.days.map fun p => if p.1 == key then (p.1, p.2 ++ [interval]) else p
      else
        ia.days ++ [(key, [interval])]
    (.allocated aid, { ia with ra := ra2, days := days2 })

/-- IntervalResourceAllocator.get_window_for_interval: asserts
interval <= daily_intervals, then returns
(midnight + i * d, midnight + (i + 1) * d). -/
def get_window_for_interval (ia : IntervalResourceAllocator) (date : ℚ)
    (interval : ℕ) : Option (ℚ × ℚ) :=
  if interval ≤ ia.daily_intervals then
    some (midnightOf date + interval * ia.interval_duration,
          midnightOf date + (interval + 1) * ia.interval_duration)
  else none

end IntervalResourceAllocator

/-! ### ResourceTracker and ResourceManager (resource_tracker.py,
resource_manager.py) -/

/-- A tracker record appended by ResourceManager.allocate_resource:
tracker_id (uuid4, modeled by a counter), the window and the kwargs. -/
structure TrackRecord where
  tracker_id : ℕ
  from_datetime : ℚ
  to_datetime : ℚ
  blob : List (String × String)
deriving DecidableEq

/-- ResourceTracker: an append-only history plus the initial context. -/
structure ResourceTracker where
  tracker : List TrackRecord
  initial_data : List (String × String)
deriving DecidableEq

/-- ResourceManager: a plain allocator for all resources and one tracker
per resource; next_tracker_id models uuid4 freshness. -/
structure ResourceManager where
  allocator : ResourceAllocator
  trackers : List (String × ResourceTracker)
  next_tracker_id : ℕ
deriving DecidableEq

namespace ResourceManager

def trackerOf (m : ResourceManager) (rid : String) : Option ResourceTracker :=
  (m.trackers.find? fun p => p.1 == rid).map Prod.snd

/-- ResourceManager.allocate_resource: FIRST append the tracker record to
trackers[resource_id] (KeyError if the tracker is missing), THEN call the
allocator; if the allocator raises, the already-appended tracker record
remains in place, exactly as in the source. -/
def allocate_resource (m : ResourceManager) (rid : String) (f t : ℚ)
    (kwargs : List (String × String)) : AllocResult × ResourceManager :=
  if (m.trackers.find? fun p => p.1 == rid).isNone then
    (.key_missing, m)
  else
    let rec_ : TrackRecord := ⟨m.next_tracker_id, f, t, kwargs⟩
    let m2 : ResourceManager :=
      { m with
        trackers := m.trackers.map fun p =>
          if p.1 == rid then (p.1, { p.2 with tracker := p.2.tracker ++ [rec_] }) else p
        next_tracker_id := m.next_tracker_id + 1 }
    match m2.allocator.allocate_resource rid f t
        (("tracker_id", toString m.next_tracker_id) :: kwargs) with
    | .key_missing => (.key_missing, m2)
    | .alloc_error => (.alloc_error, m2)
    | .allocated aid ra2 => (.allocated aid, { m2 with allocator := ra2 })

/-- The rollback actually recorded by the scheduler for resource-manager
allocations (scheduler.py lines 168, 223, 255, 321, 353):
manager.allocator.delete_allocation, the RAW allocator deletion, which
never touches the trackers. -/
def recorded_deallocator (m : ResourceManager) (aid : ℕ) : ResourceManager :=
  { m with allocator := m.allocator.delete_allocation aid }

end ResourceManager

/-! ### Tower and Scheduler context (tower.py, scheduler.py) -/

instance : Inhabited Waypoint := ⟨.leg ⟨0, 0, 0⟩ ⟨0, 0, 0⟩ "" false none none⟩

/-- Tower (tower.py): the fields the modeled scheduler operations read. -/
structure Tower where
  id : String
  position : Pos
  launch_time : ℤ := 0
  landing_time : ℤ := 0

/-- The Scheduler configuration (Scheduler.__init__). -/
structure Scheduler where
  towers : List Tower
  refuel_duration : ℝ
  remaining_flight_time_at_refuel : ℝ
  refuel_anticipation_buffer : ℝ

/-- Scheduler.get_tower_by_id: first tower with the id, if any. -/
def get_tower_by_id (s : Scheduler) (tid : String) : Option Tower :=
  s.towers.find? fun tw => tw.id == tid

/-- The refuel threshold recomputed at every waypoint of
recalculate_flight_plan: flight_time - remaining_flight_time_at_refuel -
refuel_duration. -/
noncomputable def threshold (s : Scheduler) (bot : BotSchema) : ℝ :=
  (bot.flight_time : ℝ) - s.remaining_flight_time_at_refuel - s.refuel_duration

/-- The freshly constructed being_recharged action of duration
refuel_duration that recalculate_flight_plan inserts. -/
noncomputable def refuelActionWp (s : Scheduler) : Waypoint :=
  .action "being_recharged" s.refuel_duration "" none false none none

/-! ### recalculate_flight_plan (scheduler.py lines 518-675) -/

/-- The in-flight seconds a waypoint contributes to
time_since_last_recharge: the action duration, or for a leg
int(distance / speed) seconds exactly as the source computes it. -/
noncomputable def inFlightTime (bot : BotSchema) (w : Waypoint) : ℝ :=
  if w.is_action then w.dur
  else (pyInt (distance_between w.from_pos w.to_pos / (bot.speed : ℝ)) : ℝ)

/-- One pass of the restartable scan in recalculate_flight_plan. revPre
holds the already-visited waypoints in reverse; the result is none when
the pass completes with no insertion (the for-else sets finished), or the
full mutated waypoint list at the first overshoot (the source inserts and
breaks immediately). -/
noncomputable def recalcScan (s : Scheduler) (bot : BotSchema) :
    List Waypoint → List Waypoint → ℝ → Option (List Waypoint)
  | _, [], _ => none
  | revPre, w :: rest, acc =>
    if w.is_action then
      if w.is_being_recharged then recalcScan s bot (w :: revPre) rest 0
      else
        let acc2 := acc + w.dur
        if acc2 > threshold s bot then
          if w.is_giving_recharge then
            -- waypoints.insert(index - 1, new): for index = 0 the Python
            -- index -1 inserts before the last element of the list
            let full := revPre.reverse ++ w :: rest
            let j := if revPre.length = 0 then full.length - 1 else revPre.length - 1
            some (full.insertIdx j (refuelActionWp s))
          else
            let overshoot := acc2 - threshold s bot
            if w.dur = overshoot then
              some (revPre.reverse ++ refuelActionWp s :: w :: rest)
            else
              some (revPre.reverse ++
                w.setDur (w.dur - overshoot) :: refuelActionWp s ::
                Waypoint.action w.actLabel overshoot "" none false none none :: rest)
        else recalcScan s bot (w :: revPre) rest acc2
    else
      let lt := inFlightTime bot w
      let acc2 := acc + lt
      if acc2 > threshold s bot then
        let overshoot := acc2 - threshold s bot
        let frac := (lt - overshoot) / lt
        let split : Pos :=
          ⟨w.from_pos.x + (w.to_pos.x - w.from_pos.x) * frac,
           w.from_pos.y + (w.to_pos.y - w.from_pos.y) * frac,
           w.from_pos.z + (w.to_pos.z - w.from_pos.z) * frac⟩
        some (revPre.reverse ++
          w.setLegTo split :: refuelActionWp s ::
          Waypoint.leg split w.to_pos "" false none none :: rest)
      else recalcScan s bot (w :: revPre) rest acc2

/-- The while-not-finished loop of recalculate_flight_plan, with explicit
fuel: none models non-termination within the allotted fuel, some the
returned waypoint list. -/
noncomputable def recalcLoop (s : Scheduler) (bot : BotSchema) :
    ℕ → List Waypoint → Option (List Waypoint)
  | 0, _ => none
  | fuel + 1, wps =>
    match recalcScan s bot [] wps 0 with
    | none => some wps
    | some wps2 => recalcLoop s bot fuel wps2

/-- Scheduler.recalculate_flight_plan: asserts the meta carries a bot
model, then runs the scan loop on the waypoint list in place. -/
noncomputable def recalculate_flight_plan (s : Scheduler) (fp : FlightPlan)
    (fuel : ℕ) : Option FlightPlan :=
  match fp.meta.bind FlightPlanMeta.bot_model with
  | none => none
  | some bot => (recalcLoop s bot fuel fp.waypoints).map
      fun wps => { fp with waypoints := wps }

/-- The accumulated check performed by a completed pass, as a predicate:
being_recharged actions reset the accumulator, every other waypoint adds
its in-flight time and must stay at or below the threshold. -/
def passOk (s : Scheduler) (bot : BotSchema) : ℝ → List Waypoint → Prop
  | _, [] => True
  | acc, w :: rest =>
    if w.is_action && w.is_being_recharged then passOk s bot 0 rest
    else
      acc + inFlightTime bot w ≤ threshold s bot ∧
        passOk s bot (acc + inFlightTime bot w) rest

/-- The accumulator value after scanning a list (reset at each
being_recharged action). -/
noncomputable def accOf (bot : BotSchema) : ℝ → List Waypoint → ℝ
  | acc, [] => acc
  | acc, w :: rest =>
    accOf bot (if w.is_action && w.is_being_recharged then 0 else acc + inFlightTime bot w) rest

/-- Total in-flight time of a segment of waypoints. -/
noncomputable def segTime (bot : BotSchema) (l : List Waypoint) : ℝ :=
  (l.map (inFlightTime bot)).sum

/-! ### Timing approximation (scheduler.py lines 437-516) -/

/-- The per-waypoint duration used by the timing approximations: the
action duration, or distance / speed seconds for a leg (not truncated
here, unlike the recalculation accounting). -/
noncomputable def wpSeconds (bot : BotSchema) (w : Waypoint) : ℝ :=
  if w.is_action then w.dur
  else distance_between w.from_pos w.to_pos / (bot.speed : ℝ)

/-- The spec wording of the endurance accounting, written from the claim
and NOT from the source (which truncates leg seconds with int): sum of
action durations plus each leg's exact distance/speed flight time. Kept
distinct from segTime to compare the claim against the code. -/
noncomputable def segTimeSpec (bot : BotSchema) (l : List Waypoint) : ℝ :=
  (l.map (wpSeconds bot)).sum

/-- The forward pass of Scheduler.approximate_timings: each waypoint
starts when the previous one ends and ends after its duration. -/
noncomputable def forwardAssign (bot : BotSchema) (t : ℝ) :
    List Waypoint → List Waypoint
  | [] => []
  | w :: rest =>
    w.setTimes t (t + wpSeconds bot w) :: forwardAssign bot (t + wpSeconds bot w) rest

/-- Scheduler.approximate_timings(flight_plan, launch_time). -/
noncomputable def approximate_timings (bot : BotSchema) (wps : List Waypoint)
    (launch_time : ℝ) : List Waypoint :=
  forwardAssign bot launch_time wps

/-- The backward walk of approximate_timings_based_on_waypoint_eta over
the reversed strict prefix before the target waypoint: each waypoint ends
at the start of the one after it and starts its duration earlier. -/
noncomputable def backwardAssign (bot : BotSchema) (nxtStart : ℝ) :
    List Waypoint → List Waypoint
  | [] => []
  | w :: rest =>
    w.setTimes (nxtStart - wpSeconds bot w) nxtStart ::
      backwardAssign bot (nxtStart - wpSeconds bot w) rest

/-- The first index whose waypoint satisfies the predicate (the source
builds the list of matching enumerate indices and pops the head). -/
def firstIdx (p : Waypoint → Bool) : List Waypoint → Option ℕ
  | [] => none
  | w :: rest => if p w then some 0 else (firstIdx p rest).map (· + 1)

/-- Scheduler.approximate_timings_based_on_waypoint_eta: find the first
waypoint with the given id (IndexError, modeled none, if absent; the
source also asserts a truthy waypoint_id), walk backwards from it so that
its start is the eta, then re-run the forward pass from the computed start
of waypoint 0. -/
noncomputable def approximate_timings_based_on_waypoint_eta (bot : BotSchema)
    (wps : List Waypoint) (waypoint_eta : ℝ) (waypoint_id : String) :
    Option (List Waypoint) :=
  if waypoint_id = "" then none
  else
    match firstIdx (fun w => w.wid == waypoint_id) wps with
    | none => none
    | some idx =>
      match (wps.take (idx + 1)).reverse with
      | [] => none
      | w0 :: revRest =>
        let assigned :=
          (w0.setTimes waypoint_eta (waypoint_eta + wpSeconds bot w0) ::
            backwardAssign bot waypoint_eta revRest).reverse ++ wps.drop (idx + 1)
        let launch := ((assigned.head?).bind Waypoint.startTime).getD 0
        some (approximate_timings bot assigned launch)

/-! ### validate_flight_plan and add_positions_to_action_waypoints
(scheduler.py lines 402-435 and 677-700) -/

open scoped Classical

/-- The leg-chaining check of validate_flight_plan: after the first
waypoint fixes end_position, every later leg must start where the last
leg ended. -/
def legsLineUp : Pos → List Waypoint → Prop
  | _, [] => True
  | endPos, w :: rest =>
    if w.is_leg then w.from_pos = endPos ∧ legsLineUp w.to_pos rest
    else legsLineUp endPos rest

/-- Scheduler.validate_flight_plan: the towers exist, the first waypoint
is a leg starting at the starting tower, the last waypoint is a leg ending
at the finishing tower, both endpoints sit on towers, and consecutive legs
join up. -/
def validate_flight_plan (s : Scheduler) (fp : FlightPlan) : Prop :=
  match get_tower_by_id s fp.starting_tower, get_tower_by_id s fp.finishing_tower with
  | some st, some ft =>
    match fp.waypoints, fp.waypoints.getLast? with
    | w0 :: rest, some wl =>
      w0.is_leg = true ∧
      st.position = w0.from_pos ∧
      ft.position = wl.to_pos ∧
      (∃ tw ∈ s.towers, tw.position = w0.from_pos) ∧
      wl.is_leg = true ∧
      (∃ tw ∈ s.towers, tw.position = wl.to_pos) ∧
      legsLineUp w0.to_pos rest
    | _, _ => False
  | _, _ => False

/-- Python list indexing with negative wrap-around: l[k] is l[len + k]
for negative k, IndexError (none) outside [-len, len). -/
def pyGetWp (wps : List Waypoint) (k : ℤ) : Option Waypoint :=
  if 0 ≤ k then wps.get? k.toNat
  else if -k ≤ (wps.length : ℤ) then wps.get? (wps.length - (-k).toNat) else none

/-- The backward search of add_positions_to_action_waypoints: starting at
index - 1 and walking down (wrapping through Python negative indices),
return the first leg's destination, or the starting tower position once
the index finally leaves the valid range. -/
def findPrevLegPos (wps : List Waypoint) (towerPos : Pos) : ℕ → ℤ → Pos
  | 0, _ => towerPos
  | fuel + 1, k =>
    match pyGetWp wps k with
    | none => towerPos
    | some w => if w.is_leg then w.to_pos else findPrevLegPos wps towerPos fuel (k - 1)

/-- The mutation loop of add_positions_to_action_waypoints: each action
waypoint receives the position of the nearest such leg. Only action
positions are mutated, which the backward search never reads, so mapping
over the original list is equivalent to the in-place loop. -/
def add_positions_core (towerPos : Pos) (wps : List Waypoint) : List Waypoint :=
  wps.mapIdx fun idx w =>
    if w.is_action then
      w.setPosition (findPrevLegPos wps towerPos (2 * wps.length + 2) ((idx : ℤ) - 1))
    else w

/-- Scheduler.add_positions_to_action_waypoints, with its validate
assertions before and after. -/
noncomputable def add_positions_to_action_waypoints (s : Scheduler)
    (fp : FlightPlan) : Option FlightPlan :=
  if validate_flight_plan s fp then
    match get_tower_by_id s fp.starting_tower with
    | none => none
    | some st =>
      let fp2 := { fp with waypoints := add_positions_core st.position fp.waypoints }
      if validate_flight_plan s fp2 then some fp2 else none
  else none

/-! ### stretch_flight_plan (scheduler.py lines 1129-1349) -/

/-- get_waypoint_duration (resource_tools.py): the action duration, or
the leg distance over the speed truncated at microseconds through the
string round-trip. -/
noncomputable def get_waypoint_duration (bot_speed : ℤ) (w : Waypoint) : ℝ :=
  if w.is_action then w.dur
  else truncMicro (distance_between w.to_pos w.from_pos / (bot_speed : ℝ))

/-- The displacement loop for-i-in-range(1, 22) with a break on
total(i) > required: the first such i, or 21 when the loop is exhausted
(the source then reads the loop variable left at 21; in both cases the
displacement actually used is i - 1). -/
noncomputable def dispSearch (total : ℕ → ℝ) (required : ℝ) : ℕ :=
  (((List.range' 1 21).find? fun i => decide (total i > required))).getD 21

/-- The launch half of the first-time stretch: insert a generated
vertical hop before the first leg and, if the delta exceeds the hop time,
a generated waiting action sized so hop + wait + modified first leg equals
the original first leg duration plus start_delta. A negative waiting
duration models the ActionWaypoint constructor assertion; the final
equality is the in-function assert. -/
noncomputable def stretchAddStart (bot : BotSchema) (launchPos : Pos)
    (wps : List Waypoint) (start_delta : ℝ) : Option (List Waypoint) :=
  if start_delta = 0 then some wps
  else
    match wps with
    | [] => none
    | w0 :: rest =>
      if w0.is_leg then
        let required := get_waypoint_duration bot.speed w0 + start_delta
        let total := fun i : ℕ =>
          truncMicro ((i : ℝ) / (bot.speed : ℝ)) +
            truncMicro (distance_between (launchPos.liftZ i) w0.to_pos / (bot.speed : ℝ))
        let i := dispSearch total required
        let early := Waypoint.leg launchPos (launchPos.liftZ ((i : ℝ) - 1)) "" true none none
        let earlyTime := get_waypoint_duration bot.speed early
        let w0m := w0.setLegFrom early.to_pos
        let modifiedDur := get_waypoint_duration bot.speed w0m
        if start_delta > earlyTime then
          let waitDur := required - modifiedDur - earlyTime
          if waitDur < 0 then none
          else if required = waitDur + earlyTime + modifiedDur then
            some (early :: Waypoint.action "waiting" waitDur "" none true none none :: w0m :: rest)
          else none
        else some (early :: w0m :: rest)
      else none

/-- The landing half of the first-time stretch, symmetric to the launch
half: the last leg is shortened to a raised waiting point, a generated
descent leg is appended, and a waiting action is inserted before it when
needed. -/
noncomputable def stretchAddEnd (bot : BotSchema) (landingPos : Pos)
    (wps : List Waypoint) (end_delta : ℝ) : Option (List Waypoint) :=
  if end_delta = 0 then some wps
  else
    match wps.reverse with
    | [] => none
    | wl :: revRest =>
      if wl.is_leg then
        let required := get_waypoint_duration bot.speed wl + end_delta
        let total := fun i : ℕ =>
          truncMicro ((i : ℝ) / (bot.speed : ℝ)) +
            truncMicro (distance_between (landingPos.liftZ i) wl.from_pos / (bot.speed : ℝ))
        let i := dispSearch total required
        let late := Waypoint.leg (landingPos.liftZ ((i : ℝ) - 1)) landingPos "" true none none
        let lateTime := get_waypoint_duration bot.speed late
        let wlm := wl.setLegTo late.from_pos
        let modifiedDur := get_waypoint_duration bot.speed wlm
        if end_delta > lateTime then
          let waitDur := required - modifiedDur - lateTime
          if waitDur < 0 then none
          else if required = waitDur + lateTime + modifiedDur then
            some ((late :: Waypoint.action "waiting" waitDur "" none true none none ::
              wlm :: revRest).reverse)
          else none
        else some ((late :: wlm :: revRest).reverse)
      else none

/-- The branch of stretch_flight_plan on the waypoint structure: extend an
existing stretch (generated leg followed by a waiting action) in place, or
build a new stretch at each end. Plans with fewer than two waypoints whose
first waypoint is a leg hit the Python IndexError on waypoints[1]. -/
noncomputable def stretchWaypoints (bot : BotSchema) (launchPos landingPos : Pos)
    (wps : List Waypoint) (start_delta end_delta : ℝ) : Option (List Waypoint) :=
  match wps with
  | [] => none
  | [w0] =>
    if w0.is_leg then none
    else do
      let a ← stretchAddStart bot launchPos [w0] start_delta
      stretchAddEnd bot landingPos a end_delta
  | w0 :: w1 :: rest =>
    if w0.is_leg && w1.is_action && (w1.actLabel == "waiting") then
      let wps1 := w0 :: w1.setDur (w1.dur + start_delta) :: rest
      some
        (match wps1.reverse with
         | wl :: wsl :: revRest =>
           if wl.is_leg && wsl.is_action && (wsl.actLabel == "waiting") then
             (wl :: wsl.setDur (wsl.dur + end_delta) :: revRest).reverse
           else wps1
         | _ => wps1)
    else do
      let a ← stretchAddStart bot launchPos wps start_delta
      stretchAddEnd bot landingPos a end_delta

/-- Scheduler.stretch_flight_plan: look up towers, bot and plan times,
mutate the waypoints, re-approximate timings from original start minus
start_delta, back-fill action positions, and check the final duration
assertion old + start_delta + end_delta = new on the second-rounded
durations. -/
noncomputable def stretch_flight_plan (s : Scheduler) (fp : FlightPlan)
    (start_delta end_delta : ℝ) : Option FlightPlan := do
  let launch_tower ← get_tower_by_id s fp.starting_tower
  let landing_tower ← get_tower_by_id s fp.finishing_tower
  let meta ← fp.meta
  let bot ← meta.bot_model
  let original_start_time ← fp.start_time
  let original_end_time ← fp.end_time
  let wps1 ← stretchWaypoints bot launch_tower.position landing_tower.position
    fp.waypoints start_delta end_delta
  let wps2 := approximate_timings bot wps1 (original_start_time - start_delta)
  let fp2 ← add_positions_to_action_waypoints s { fp with waypoints := wps2 }
  let new_start ← fp2.start_time
  let new_end ← fp2.end_time
  let old_duration := without_microseconds (original_end_time - original_start_time)
  let new_duration := without_microseconds (new_end - new_start)
  if old_duration + start_delta + end_delta = new_duration then some fp2 else none

/-! ### Concrete instances used by the claim theorems, counterexamples and
witnesses -/

/-- The scheduler configuration of the spec's single-long-leg scenario:
refuel_duration 100 s, remaining_flight_time_at_refuel 200 s,
refuel_anticipation_buffer 100 s. -/
noncomputable def sC5 : Scheduler := ⟨[], 100, 200, 100⟩

/-- The operator bot of the scenario: endurance 500 s, speed 1 m/s. -/
def botC5 : BotSchema := ⟨"CarrierI", "Carrier", 500, 1⟩

/-- A z-axis leg waypoint above the origin column. -/
def legW (z1 z2 : ℝ) : Waypoint := .leg ⟨0, 0, z1⟩ ⟨0, 0, z2⟩ "" false none none

/-- The being_recharged action of 100 s the scenario inserts. -/
def refW : Waypoint := .action "being_recharged" 100 "" none false none none

def p0wps : List Waypoint := [legW 0 1000]

def p1wps : List Waypoint := [legW 0 200, refW, legW 200 1000]

def p2wps : List Waypoint := [legW 0 200, refW, legW 200 400, refW, legW 400 1000]

def p3wps : List Waypoint :=
  [legW 0 200, refW, legW 200 400, refW, legW 400 600, refW, legW 600 1000]

def p4wps : List Waypoint :=
  [legW 0 200, refW, legW 200 400, refW, legW 400 600, refW, legW 600 800, refW,
   legW 800 1000]

/-- The input flight plan of the scenario: one leg [0,0,0] to [0,0,1000]. -/
def fpC5 : FlightPlan :=
  ⟨p0wps, "TowerOne", "TowerTwo", "fp5", some ⟨none, some botC5, none, none⟩⟩

/-- A fresh allocator holding one resource (C3). -/
def raC3start : ResourceAllocator := ⟨[("r1", [])], 0⟩

/-- The allocator after reserving [2, 5) on r1 (C3). -/
def raC3one : ResourceAllocator := ⟨[("r1", [⟨0, 2, 5, []⟩])], 1⟩

/-- An interval allocator with hour-long slots and one resource (C4). -/
def iaC4 : IntervalResourceAllocator := .mk0 3600 ⟨[("r1", [])], 0⟩

/-- A resource manager holding payload p1 with an empty tracker (C2). -/
def rmC2start : ResourceManager :=
  ⟨⟨[("p1", [])], 0⟩, [("p1", ⟨[], [("tower_id", "t1")]⟩)], 0⟩

/-- An action waypoint with the multi-token label of the spec example (C9). -/
def wMulti : Waypoint := .action "payload being_recharged" 10 "w1" none false none none

/-- A flight plan containing the multi-token action (C9). -/
def fpC9 : FlightPlan := ⟨[wMulti], "t1", "t2", "fp9", none⟩

/-- A two-leg plan for the C10 witness. -/
def fpC10 : FlightPlan :=
  ⟨[legW 0 100, refW, legW 100 250], "t1", "t2", "fp10", none⟩

/-- A plan without any leg for the C10 witness. -/
def fpC10e : FlightPlan := ⟨[refW], "t1", "t2", "fp10e", none⟩

/-- The anticipation-buffer action carrying the critical id (C7 witness). -/
def wCrit : Waypoint :=
  .action "refuel_anticipation_buffer" 100 "critical" none false none none

/-- A two-waypoint plan whose second waypoint carries the critical id. -/
def wpsC7 : List Waypoint := [legW 0 100, wCrit]

/-- Two towers 100 m apart for the C6 witness. -/
noncomputable def sC6 : Scheduler :=
  ⟨[⟨"TowerOne", ⟨0, 0, 0⟩, 1, 1⟩, ⟨"TowerTwo", ⟨0, 0, 100⟩, 1, 1⟩], 100, 200, 100⟩

def w0C6 : Waypoint := .leg ⟨0, 0, 0⟩ ⟨0, 0, 50⟩ "" false (some 0) (some 50)

def w1C6 : Waypoint := .leg ⟨0, 0, 50⟩ ⟨0, 0, 100⟩ "" false (some 50) (some 100)

/-- An approximated two-leg plan from TowerOne to TowerTwo (C6 witness). -/
def fpC6 : FlightPlan :=
  ⟨[w0C6, w1C6], "TowerOne", "TowerTwo", "fp6", some ⟨none, some botC5, none, none⟩⟩

def earlyC6 : Waypoint := .leg ⟨0, 0, 0⟩ ⟨0, 0, 20⟩ "" true none none

def waitLC6 : Waypoint := .action "waiting" 60 "" none true none none

def w0mC6 : Waypoint := .leg ⟨0, 0, 20⟩ ⟨0, 0, 50⟩ "" false (some 0) (some 50)

def wlmC6 : Waypoint := .leg ⟨0, 0, 50⟩ ⟨0, 0, 120⟩ "" false (some 50) (some 100)

def waitEC6 : Waypoint := .action "waiting" 20 "" none true none none

def lateC6 : Waypoint := .leg ⟨0, 0, 120⟩ ⟨0, 0, 100⟩ "" true none none

/-- The stretched waypoint list before re-timing (C6 witness). -/
def wps1C6 : List Waypoint := [earlyC6, waitLC6, w0mC6, wlmC6, waitEC6, lateC6]

/-- The stretched list after the forward timing pass from -60 s. -/
noncomputable def wps2C6 : List Waypoint :=
  [.leg ⟨0, 0, 0⟩ ⟨0, 0, 20⟩ "" true (some (-60)) (some (-40)),
   .action "waiting" 60 "" none true (some (-40)) (some 20),
   .leg ⟨0, 0, 20⟩ ⟨0, 0, 50⟩ "" false (some 20) (some 50),
   .leg ⟨0, 0, 50⟩ ⟨0, 0, 120⟩ "" false (some 50) (some 120),
   .action "waiting" 20 "" none true (some 120) (some 140),
   .leg ⟨0, 0, 120⟩ ⟨0, 0, 100⟩ "" true (some 140) (some 160)]

/-- The final stretched list, with action positions back-filled. -/
noncomputable def outWpsC6 : List Waypoint :=
  [.leg ⟨0, 0, 0⟩ ⟨0, 0, 20⟩ "" true (some (-60)) (some (-40)),
   .action "waiting" 60 "" (some ⟨0, 0, 20⟩) true (some (-40)) (some 20),
   .leg ⟨0, 0, 20⟩ ⟨0, 0, 50⟩ "" false (some 20) (some 50),
   .leg ⟨0, 0, 50⟩ ⟨0, 0, 120⟩ "" false (some 50) (some 120),
   .action "waiting" 20 "" (some ⟨0, 0, 120⟩) true (some 120) (some 140),
   .leg ⟨0, 0, 120⟩ ⟨0, 0, 100⟩ "" true (some 140) (some 160)]

/-- The output plan of the C6 witness stretch. -/
noncomputable def outC6 : FlightPlan := { fpC6 with waypoints := outWpsC6 }

/-! ### Helper lemmas -/

theorem startTime_setTimes (w : Waypoint) (a b : ℝ) :
    (w.setTimes a b).startTime = some a := by
  cases w <;> rfl

theorem endTime_setTimes (w : Waypoint) (a b : ℝ) :
    (w.setTimes a b).endTime = some b := by
  cases w <;> rfl

theorem wpSeconds_setTimes (bot : BotSchema) (w : Waypoint) (a b : ℝ) :
    wpSeconds bot (w.setTimes a b) = wpSeconds bot w := by
  cases w <;> rfl

theorem startTime_setPosition (w : Waypoint) (p : Pos) :
    (w.setPosition p).startTime = w.startTime := by
  cases w <;> rfl

theorem endTime_setPosition (w : Waypoint) (p : Pos) :
    (w.setPosition p).endTime = w.endTime := by
  cases w <;> rfl

/-- Distance between two points on the same vertical column. -/
theorem distance_z (x y z1 z2 : ℝ) :
    distance_between ⟨x, y, z1⟩ ⟨x, y, z2⟩ = |z1 - z2| := by
  simp only [distance_between, sub_self, abs_zero, sq_abs]
  rw [show (0 : ℝ) ^ 2 + 0 ^ 2 + (z1 - z2) ^ 2 = (z1 - z2) ^ 2 by ring,
    Real.sqrt_sq_eq_abs]

theorem pyInt_intCast (n : ℤ) : pyInt (n : ℝ) = n := by
  unfold pyInt
  split <;> simp

theorem pyInt_of_nonneg (x : ℝ) (h : 0 ≤ x) : pyInt x = ⌊x⌋ := by
  unfold pyInt
  simp [h]

/-- First-index search results are within bounds. -/
theorem firstIdx_lt_length (p : Waypoint → Bool) :
    ∀ (l : List Waypoint) (i : ℕ), firstIdx p l = some i → i < l.length := by
  intro l
  induction l with
  | nil => intro i h; simp [firstIdx] at h
  | cons x xs ih =>
    intro i h
    rw [firstIdx] at h
    by_cases hp : p x
    · rw [if_pos hp] at h
      cases h
      simp
    · rw [if_neg hp] at h
      simp only [Option.map_eq_some'] at h
      obtain ⟨j, hj, rfl⟩ := h
      have := ih j hj
      simp
      omega

/-! ### Claim theorems -/

/-- C2: the claim of rollback atomicity fails on the code. The rollback
recorded for resource-manager allocations is the raw
allocator.delete_allocation (scheduler.py line 168), which removes the
allocation but not the tracker record that
ResourceManager.allocate_resource appended first, so the manager state
after a failed call differs from the state before it. This theorem
evaluates that exact allocate-then-recorded-rollback sequence. -/
theorem C2_tracker_survives_rollback :
    ((rmC2start.allocate_resource "p1" 0 100 []).1 = .allocated 0) ∧
    (((rmC2start.allocate_resource "p1" 0 100 []).2.recorded_deallocator
        0).allocator.allocationsOf "p1" = some []) ∧
    (((rmC2start.allocate_resource "p1" 0 100 []).2.recorded_deallocator
        0).trackerOf "p1" =
      some ⟨[⟨0, 0, 100, []⟩], [("tower_id", "t1")]⟩) ∧
    (rmC2start.trackerOf "p1" = some ⟨[], [("tower_id", "t1")]⟩) ∧
    ((rmC2start.allocate_resource "p1" 0 100 []).2.recorded_deallocator 0 ≠
      rmC2start) := by
  decide

/-- C3: the overlap check of ResourceAllocator.allocate_resource is not
the claimed half-open-overlap test: it only rejects a request with an
endpoint inside an existing allocation, so a request that strictly
contains an existing allocation is accepted even though the two intervals
overlap in the claimed sense (0 < 5 and 2 < 10), leaving two overlapping
allocations stored on the same resource. -/
theorem C3_containment_accepted :
    raC3start.allocate_resource "r1" 2 5 [] = .allocated 0 raC3one ∧
    ((0 : ℚ) < 5 ∧ (2 : ℚ) < 10) ∧
    raC3one.allocate_resource "r1" 0 10 [] =
      .allocated 1 ⟨[("r1", [⟨0, 2, 5, []⟩, ⟨1, 0, 10, []⟩])], 2⟩ := by
  decide

/-- C4: the interval-to-window mapping fails for every interval index
beyond 0: allocate_resource stores [midnight + i*d, midnight + i*d +
(i+1)*d) while get_window_for_interval returns
[midnight + i*d, midnight + (i+1)*d). At interval 1 with hour slots the
stored end is 10800 s after midnight, the window end 7200 s. -/
theorem C4_interval_window_mismatch :
    iaC4.allocWindow 0 1 = (3600, 10800) ∧
    iaC4.get_window_for_interval 0 1 = some (3600, 7200) ∧
    (iaC4.allocate_resource "r1" 0 1 []).1 = .allocated 0 ∧
    ((iaC4.allocate_resource "r1" 0 1 []).2.ra.allocationsOf "r1" =
      some [⟨0, 3600, 10800, [("interval", "1")]⟩]) ∧
    (10800 : ℚ) ≠ 7200 := by
  have hmid : midnightOf 0 = 0 := by
    norm_num [midnightOf]
  have hwin : iaC4.allocWindow 0 1 = (3600, 10800) := by
    simp only [IntervalResourceAllocator.allocWindow, iaC4,
      IntervalResourceAllocator.mk0, hmid]
    norm_num
  refine ⟨hwin, ?_, ?_, ?_, by norm_num⟩
  · simp only [IntervalResourceAllocator.get_window_for_interval, iaC4,
      IntervalResourceAllocator.mk0, hmid]
    norm_num
  · simp only [IntervalResourceAllocator.allocate_resource,
      IntervalResourceAllocator.allocWindow, hmid,
      ResourceAllocator.allocate_resource, iaC4, IntervalResourceAllocator.mk0,
      ResourceAllocator.allocationsOf]
    norm_num [List.find?]
  · simp only [IntervalResourceAllocator.allocate_resource,
      IntervalResourceAllocator.allocWindow, hmid,
      ResourceAllocator.allocate_resource, iaC4, IntervalResourceAllocator.mk0,
      ResourceAllocator.allocationsOf]
    norm_num [List.find?]
    rfl

/-- C9 counterexample: the waypoint with label payload being_recharged
satisfies the token-membership predicate is_being_recharged, but
FlightPlan.refuel_waypoints tests the label for string equality with
being_recharged and therefore excludes it, so refuel_waypoints is NOT the
set of action waypoints whose label contains the token. -/
theorem C9_counterexample :
    wMulti.is_being_recharged = true ∧
    wMulti.is_action = true ∧
    fpC9.refuel_waypoints = [] ∧
    fpC9.waypoints.filter (fun w => w.is_action && w.is_being_recharged) = [wMulti] := by
  refine ⟨rfl, rfl, rfl, rfl⟩

/-- C9 amended: is_being_recharged, is_giving_recharge and
is_payload_action are token-membership tests on the label split at
spaces; refuel_waypoints, however, keeps exactly the action waypoints
whose label is the single token being_recharged (string equality), so a
multi-token label is recognized by the predicate but excluded from
refuel_waypoints. -/
theorem C9_token_predicates :
    (∀ (a : String) (d : ℝ) (i : String) (p : Option Pos) (g : Bool)
        (st et : Option ℝ),
      ((Waypoint.action a d i p g st et).is_being_recharged = true ↔
        "being_recharged" ∈ pySplitSpace a) ∧
      ((Waypoint.action a d i p g st et).is_giving_recharge = true ↔
        "giving_recharge" ∈ pySplitSpace a) ∧
      ((Waypoint.action a d i p g st et).is_payload_action = true ↔
        "payload" ∈ pySplitSpace a)) ∧
    (∀ (fp : FlightPlan) (w : Waypoint),
      w ∈ fp.refuel_waypoints ↔
        w ∈ fp.waypoints ∧ w.is_action = true ∧ w.actLabel = "being_recharged") := by
  constructor
  · intro a d i p g st et
    refine ⟨?_, ?_, ?_⟩ <;>
      simp [Waypoint.is_being_recharged, Waypoint.is_giving_recharge,
        Waypoint.is_payload_action, List.contains, List.elem_iff]
  · intro fp w
    simp [FlightPlan.refuel_waypoints, List.mem_filter, Bool.and_eq_true,
      beq_iff_eq, and_assoc]

/-- The fold of FlightPlan.total_distance keeps only the last leg. -/
theorem total_distance_fold (l : List Waypoint) :
    ∀ init : ℝ,
      l.foldl (fun acc w =>
        if w.is_leg then distance_between w.from_pos w.to_pos else acc) init =
      (match (l.filter Waypoint.is_leg).getLast? with
       | some w => distance_between w.from_pos w.to_pos
       | none => init) := by
  induction l with
  | nil => intro init; rfl
  | cons w l ih =>
    intro init
    by_cases hw : w.is_leg = true
    · rw [List.foldl_cons, if_pos hw, ih, List.filter_cons_of_pos hw]
      cases hfl : (l.filter Waypoint.is_leg) with
      | nil => simp
      | cons v vs =>
        rw [List.getLast?_cons_cons]
        cases hgl : (v :: vs).getLast? with
        | none => simp at hgl
        | some u => rfl
    · rw [List.foldl_cons, if_neg hw, ih, List.filter_cons_of_neg (by simpa using hw)]

/-- C10: total_distance returns the Euclidean length of the last leg of
the waypoint list only (the loop overwrites the accumulator instead of
summing) and 0 when the plan has no leg; this is the key by which
create_refuel_flight_plans sorts its candidate refueler plans. -/
theorem C10_total_distance (fp : FlightPlan) :
    (∀ w : Waypoint,
      (fp.waypoints.filter Waypoint.is_leg).getLast? = some w →
        fp.total_distance = distance_between w.from_pos w.to_pos) ∧
    ((fp.waypoints.filter Waypoint.is_leg) = [] → fp.total_distance = 0) := by
  constructor
  · intro w hw
    rw [FlightPlan.total_distance, total_distance_fold, hw]
  · intro hw
    rw [FlightPlan.total_distance, total_distance_fold, hw]
    rfl

/-- C10 witness: on a concrete plan with legs [0,0,0]-[0,0,100] and
[0,0,100]-[0,0,250], total_distance is the length of the second leg, and
on a leg-free plan it is 0. -/
theorem C10_total_distance_witness :
    ((fpC10.waypoints.filter Waypoint.is_leg).getLast? = some (legW 100 250) ∧
      fpC10.total_distance =
        distance_between (legW 100 250).from_pos (legW 100 250).to_pos) ∧
    ((fpC10e.waypoints.filter Waypoint.is_leg) = [] ∧ fpC10e.total_distance = 0) :=
  ⟨⟨rfl, (C10_total_distance fpC10).1 (legW 100 250) rfl⟩,
   ⟨rfl, (C10_total_distance fpC10e).2 rfl⟩⟩

/-- A scan pass that completes without insertion certifies the
accumulated threshold check along the whole list. -/
theorem recalcScan_none_passOk (s : Scheduler) (bot : BotSchema) :
    ∀ (rest revPre : List Waypoint) (acc : ℝ),
      recalcScan s bot revPre rest acc = none → passOk s bot acc rest := by
  intro rest
  induction rest with
  | nil => intro revPre acc _; trivial
  | cons w rest ih =>
    intro revPre acc h
    by_cases ha : w.is_action = true
    · by_cases hr : w.is_being_recharged = true
      · simp only [recalcScan, ha, hr, if_true] at h
        simp only [passOk, ha, hr, Bool.and_self, if_true]
        exact ih _ _ h
      · simp only [recalcScan, ha, hr, if_true, Bool.false_eq_true, if_false] at h
        simp only [passOk, ha, hr, Bool.and_false, Bool.false_eq_true, if_false]
        by_cases hover : acc + w.dur > threshold s bot
        · exfalso
          rw [if_pos hover] at h
          split at h
          · simp at h
          · split at h <;> simp at h
        · rw [if_neg hover] at h
          have hf : inFlightTime bot w = w.dur := by simp [inFlightTime, ha]
          rw [hf]
          exact ⟨by linarith [not_lt.mp hover], ih _ _ h⟩
    · simp only [recalcScan, ha, Bool.false_eq_true, if_false] at h
      have hr : w.is_being_recharged = false := by
        cases w with
        | leg a b i g st et => rfl
        | action a d i p g st et => simp [Waypoint.is_action] at ha
      simp only [passOk, ha, hr, Bool.false_and, Bool.false_eq_true, if_false]
      by_cases hover : acc + inFlightTime bot w > threshold s bot
      · exfalso
        rw [if_pos hover] at h
        simp at h
      · rw [if_neg hover] at h
        exact ⟨not_lt.mp hover, ih _ _ h⟩

/-- When the recalculation loop returns, the final pass found no
overshoot. -/
theorem recalcLoop_some_scan_none (s : Scheduler) (bot : BotSchema) :
    ∀ (fuel : ℕ) (wps out : List Waypoint),
      recalcLoop s bot fuel wps = some out → recalcScan s bot [] out 0 = none := by
  intro fuel
  induction fuel with
  | zero => intro wps out h; simp [recalcLoop] at h
  | succ n ih =>
    intro wps out h
    rw [recalcLoop] at h
    cases hscan : recalcScan s bot [] wps 0 with
    | none =>
      rw [hscan] at h
      simp only [Option.some.injEq] at h
      subst h
      exact hscan
    | some wps2 =>
      rw [hscan] at h
      exact ih wps2 out h

theorem accOf_append (bot : BotSchema) :
    ∀ (xs ys : List Waypoint) (acc : ℝ),
      accOf bot acc (xs ++ ys) = accOf bot (accOf bot acc xs) ys := by
  intro xs
  induction xs with
  | nil => intro ys acc; rfl
  | cons w xs ih =>
    intro ys acc
    simp only [List.cons_append, accOf]
    exact ih _ _

theorem passOk_append (s : Scheduler) (bot : BotSchema) :
    ∀ (xs ys : List Waypoint) (acc : ℝ),
      passOk s bot acc (xs ++ ys) → passOk s bot (accOf bot acc xs) ys := by
  intro xs
  induction xs with
  | nil => intro ys acc h; exact h
  | cons w xs ih =>
    intro ys acc h
    simp only [List.cons_append, passOk] at h
    simp only [accOf]
    by_cases hc : (w.is_action && w.is_being_recharged) = true
    · simp only [hc, if_true] at h ⊢
      exact ih _ _ h
    · simp only [hc, Bool.false_eq_true, if_false] at h ⊢
      exact ih _ _ h.2

/-- A refuel-free block checked by a completed pass accumulates at most
up to the threshold. -/
theorem passOk_run (s : Scheduler) (bot : BotSchema) :
    ∀ (m rest : List Waypoint) (acc : ℝ),
      m ≠ [] →
      (∀ w ∈ m, (w.is_action && w.is_being_recharged) = false) →
      passOk s bot acc (m ++ rest) →
      acc + segTime bot m ≤ threshold s bot := by
  intro m
  induction m with
  | nil => intro rest acc hne; exact absurd rfl hne
  | cons w m ih =>
    intro rest acc _ hfree h
    have hw : (w.is_action && w.is_being_recharged) = false := hfree w (by simp)
    rw [List.cons_append] at h
    simp only [passOk, hw, Bool.false_eq_true, if_false] at h
    rcases h with ⟨h1, h2⟩
    by_cases hm0 : m = []
    · subst hm0
      simp only [segTime, List.map_cons, List.map_nil, List.sum_cons, List.sum_nil,
        add_zero]
      exact h1
    · have := ih rest (acc + inFlightTime bot w) hm0
        (fun v hv => hfree v (by simp [hv])) h2
      simp only [segTime, List.map_cons, List.sum_cons] at this ⊢
      linarith

/-- C1, amended: endurance safety of recalculation holds for the
accounting the code actually performs. If recalculate_flight_plan
returns (modeled by the fuelled loop yielding some output) and the
threshold E - M - R is positive, then every maximal refuel-free segment
of waypoints (delimited by being_recharged actions or the plan ends) has
accumulated in-flight time, action durations plus the per-leg
int(distance/speed) seconds the code charges for legs, at most the
threshold. Under the exact distance/speed accounting stated by the
original claim the bound is false: see C1_counterexample. -/
theorem C1_endurance_safety (s : Scheduler) (bot : BotSchema) (fuel : ℕ)
    (wps out l1 m l2 : List Waypoint)
    (hpos : 0 < threshold s bot)
    (hrun : recalcLoop s bot fuel wps = some out)
    (hdec : out = l1 ++ m ++ l2)
    (hleft : l1 = [] ∨
      ∃ l w, l1 = l ++ [w] ∧ (w.is_action && w.is_being_recharged) = true)
    (hm : ∀ w ∈ m, (w.is_action && w.is_being_recharged) = false)
    (_hright : l2 = [] ∨
      ∃ w l, l2 = w :: l ∧ (w.is_action && w.is_being_recharged) = true) :
    segTime bot m ≤ threshold s bot := by
  have hscan := recalcLoop_some_scan_none s bot fuel wps out hrun
  have hpass : passOk s bot 0 out := recalcScan_none_passOk s bot out [] 0 hscan
  rw [hdec, List.append_assoc] at hpass
  have h2 := passOk_append s bot l1 (m ++ l2) 0 hpass
  have hacc : accOf bot 0 l1 = 0 := by
    rcases hleft with rfl | ⟨l, w, rfl, hw⟩
    · rfl
    · rw [accOf_append]
      simp [accOf, hw]
  rw [hacc] at h2
  by_cases hm0 : m = []
  · subst hm0
    simp only [segTime, List.map_nil, List.sum_nil]
    linarith
  · have := passOk_run s bot m l2 0 hm0 hm h2
    linarith

/-- C1 witness: a 100 m leg under the endurance-500 configuration
(threshold 200 s) is returned unchanged by the loop, and its single
segment accumulates 100 s, within the threshold. -/
theorem C1_endurance_safety_witness :
    0 < threshold sC5 botC5 ∧
    recalcLoop sC5 botC5 1 [legW 0 100] = some [legW 0 100] ∧
    segTime botC5 [legW 0 100] ≤ threshold sC5 botC5 := by
  have hpos : 0 < threshold sC5 botC5 := by norm_num [threshold, sC5, botC5]
  have hf : inFlightTime botC5 (legW 0 100) = 100 := by
    simp only [inFlightTime, legW, Waypoint.is_action, Bool.false_eq_true, if_false,
      Waypoint.from_pos, Waypoint.to_pos, botC5]
    rw [distance_z]
    rw [pyInt_of_nonneg _ (by norm_num)]
    norm_num
  have hia : (legW 0 100).is_action = false := rfl
  have hscan : recalcScan sC5 botC5 [] [legW 0 100] 0 = none := by
    simp only [recalcScan, hia, Bool.false_eq_true, if_false]
    rw [if_neg]
    rw [hf]
    norm_num [threshold, sC5, botC5]
  have hrun : recalcLoop sC5 botC5 1 [legW 0 100] = some [legW 0 100] := by
    rw [recalcLoop, hscan]
  refine ⟨hpos, hrun, ?_⟩
  exact C1_endurance_safety sC5 botC5 1 [legW 0 100] [legW 0 100] [] [legW 0 100] []
    hpos hrun (by simp) (Or.inl rfl)
    (by
      intro w hw
      rw [List.mem_singleton] at hw
      subst hw
      rfl)
    (Or.inl rfl)

/-! ### C5: symbolic evaluation of the single-long-leg scenario -/

theorem leg_not_recharge (a b : Pos) (i : String) (g : Bool) (st et : Option ℝ) :
    (Waypoint.leg a b i g st et).is_being_recharged = false := rfl

theorem act_recharge_is_recharge (d : ℝ) (i : String) (p : Option Pos) (g : Bool)
    (st et : Option ℝ) :
    (Waypoint.action "being_recharged" d i p g st et).is_being_recharged = true := rfl

theorem scanC5_0 : recalcScan sC5 botC5 [] p0wps 0 = some p1wps := by
  norm_num [recalcScan, p0wps, p1wps, legW, refW, refuelActionWp, sC5, botC5,
    inFlightTime, Waypoint.is_action, leg_not_recharge, act_recharge_is_recharge,
    Waypoint.from_pos, Waypoint.to_pos, Waypoint.setLegTo, threshold, distance_z,
    pyInt_of_nonneg]

set_option maxHeartbeats 2000000 in
theorem scanC5_1 : recalcScan sC5 botC5 [] p1wps 0 = some p2wps := by
  norm_num [recalcScan, p1wps, p2wps, legW, refW, refuelActionWp, sC5, botC5,
    inFlightTime, Waypoint.is_action, leg_not_recharge, act_recharge_is_recharge,
    Waypoint.from_pos, Waypoint.to_pos, Waypoint.setLegTo, threshold, distance_z,
    pyInt_of_nonneg]

set_option maxHeartbeats 2000000 in
theorem scanC5_2 : recalcScan sC5 botC5 [] p2wps 0 = some p3wps := by
  norm_num [recalcScan, p2wps, p3wps, legW, refW, refuelActionWp, sC5, botC5,
    inFlightTime, Waypoint.is_action, leg_not_recharge, act_recharge_is_recharge,
    Waypoint.from_pos, Waypoint.to_pos, Waypoint.setLegTo, threshold, distance_z,
    pyInt_of_nonneg]

set_option maxHeartbeats 2000000 in
theorem scanC5_3 : recalcScan sC5 botC5 [] p3wps 0 = some p4wps := by
  norm_num [recalcScan, p3wps, p4wps, legW, refW, refuelActionWp, sC5, botC5,
    inFlightTime, Waypoint.is_action, leg_not_recharge, act_recharge_is_recharge,
    Waypoint.from_pos, Waypoint.to_pos, Waypoint.setLegTo, threshold, distance_z,
    pyInt_of_nonneg]

set_option maxHeartbeats 2000000 in
theorem scanC5_4 : recalcScan sC5 botC5 [] p4wps 0 = none := by
  norm_num [recalcScan, p4wps, legW, refW, refuelActionWp, sC5, botC5,
    inFlightTime, Waypoint.is_action, leg_not_recharge, act_recharge_is_recharge,
    Waypoint.from_pos, Waypoint.to_pos, Waypoint.setLegTo, threshold, distance_z,
    pyInt_of_nonneg]

theorem recalcLoop_step (s : Scheduler) (bot : BotSchema) (n : ℕ)
    (wps wps2 : List Waypoint) (h : recalcScan s bot [] wps 0 = some wps2) :
    recalcLoop s bot (n + 1) wps = recalcLoop s bot n wps2 := by
  rw [recalcLoop, h]

theorem recalcLoop_fix (s : Scheduler) (bot : BotSchema) (n : ℕ)
    (wps : List Waypoint) (h : recalcScan s bot [] wps 0 = none) :
    recalcLoop s bot (n + 1) wps = some wps := by
  rw [recalcLoop, h]

theorem recalcLoop_C5 (k : ℕ) : recalcLoop sC5 botC5 (k + 5) p0wps = some p4wps := by
  have e : k + 5 = ((((k + 1) + 1) + 1) + 1) + 1 := by omega
  rw [e, recalcLoop_step _ _ _ _ _ scanC5_0, recalcLoop_step _ _ _ _ _ scanC5_1,
    recalcLoop_step _ _ _ _ _ scanC5_2, recalcLoop_step _ _ _ _ _ scanC5_3,
    recalcLoop_fix _ _ _ _ scanC5_4]

/-- C5: on the single leg [0,0,0] to [0,0,1000] with a speed-1,
endurance-500 bot and refuel_duration 100 s, remaining 200 s, the
recalculation produces exactly five 200 m legs alternating with four
100 s being_recharged actions (nine waypoints). -/
theorem C5_concrete_recalculation (fuel : ℕ) (h : 5 ≤ fuel) :
    recalculate_flight_plan sC5 fpC5 fuel = some { fpC5 with waypoints := p4wps } := by
  obtain ⟨k, rfl⟩ : ∃ k, fuel = k + 5 := ⟨fuel - 5, by omega⟩
  rw [recalculate_flight_plan]
  simp only [show fpC5.meta.bind FlightPlanMeta.bot_model = some botC5 from rfl,
    show fpC5.waypoints = p0wps from rfl]
  rw [recalcLoop_C5 k]
  rfl

/-- C5 witness: the theorem instantiated at the minimal fuel. -/
theorem C5_concrete_recalculation_witness :
    5 ≤ 5 ∧
    recalculate_flight_plan sC5 fpC5 5 = some { fpC5 with waypoints := p4wps } :=
  ⟨by norm_num, C5_concrete_recalculation 5 (by norm_num)⟩

/-! ### C1 under the exact accounting: a fractional leg slips past the
threshold -/

theorem scanCE_0 : recalcScan sC5 botC5 [] [legW 0 (801 / 2)] 0 =
    some [legW 0 (801 / 4), refW, legW (801 / 4) (801 / 2)] := by
  norm_num [recalcScan, legW, refW, refuelActionWp, sC5, botC5,
    inFlightTime, Waypoint.is_action, leg_not_recharge, act_recharge_is_recharge,
    Waypoint.from_pos, Waypoint.to_pos, Waypoint.setLegTo, threshold, distance_z,
    pyInt_of_nonneg,
    show |(801 / 2 : ℝ)| = 801 / 2 from abs_of_nonneg (by norm_num),
    show |(801 / 4 : ℝ)| = 801 / 4 from abs_of_nonneg (by norm_num)]

set_option maxHeartbeats 2000000 in
theorem scanCE_1 : recalcScan sC5 botC5 []
    [legW 0 (801 / 4), refW, legW (801 / 4) (801 / 2)] 0 = none := by
  norm_num [recalcScan, legW, refW, refuelActionWp, sC5, botC5,
    inFlightTime, Waypoint.is_action, leg_not_recharge, act_recharge_is_recharge,
    Waypoint.from_pos, Waypoint.to_pos, Waypoint.setLegTo, threshold, distance_z,
    pyInt_of_nonneg,
    show |(801 / 2 : ℝ)| = 801 / 2 from abs_of_nonneg (by norm_num),
    show |(801 / 4 : ℝ)| = 801 / 4 from abs_of_nonneg (by norm_num)]

/-- C1: counterexample to the claim as frozen, which charges each leg its
exact distance/speed flight time. A single 400.5 m leg under the
threshold-200 configuration is split at ratio 1/2 into a 200.25 m piece,
accepted by the rescan because int(200.25) = 200 does not exceed the
threshold; so the loop returns, yet the segment between the plan start
and the first being_recharged action flies 200.25 s > 200 s under the
claim's exact accounting. -/
theorem C1_counterexample :
    0 < threshold sC5 botC5 ∧
    recalcLoop sC5 botC5 2 [legW 0 (801 / 2)] =
      some ([] ++ [legW 0 (801 / 4)] ++ refW :: [legW (801 / 4) (801 / 2)]) ∧
    (refW.is_action && refW.is_being_recharged) = true ∧
    (∀ w ∈ [legW 0 (801 / 4)], (w.is_action && w.is_being_recharged) = false) ∧
    threshold sC5 botC5 < segTimeSpec botC5 [legW 0 (801 / 4)] := by
  refine ⟨by norm_num [threshold, sC5, botC5], ?_, rfl, ?_, ?_⟩
  · show recalcLoop sC5 botC5 (0 + 1 + 1) [legW 0 (801 / 2)] =
      some ([] ++ [legW 0 (801 / 4)] ++ refW :: [legW (801 / 4) (801 / 2)])
    rw [recalcLoop_step _ _ _ _ _ scanCE_0, recalcLoop_fix _ _ _ _ scanCE_1]
    rfl
  · intro w hw
    rw [List.mem_singleton] at hw
    subst hw
    rfl
  · rw [segTimeSpec]
    norm_num [wpSeconds, legW, Waypoint.is_action, Waypoint.from_pos,
      Waypoint.to_pos, distance_z, botC5, threshold, sC5,
      show |(801 / 4 : ℝ)| = 801 / 4 from abs_of_nonneg (by norm_num)]

/-! ### C7: waypoint-eta anchoring -/

theorem forwardAssign_length (bot : BotSchema) :
    ∀ (l : List Waypoint) (t : ℝ), (forwardAssign bot t l).length = l.length := by
  intro l
  induction l with
  | nil => intro t; rfl
  | cons w l ih => intro t; simp only [forwardAssign, List.length_cons, ih]

theorem forwardAssign_start (bot : BotSchema) :
    ∀ (l : List Waypoint) (t : ℝ) (k : ℕ), k < l.length →
      ((forwardAssign bot t l).getD k default).startTime =
        some (t + ((l.take k).map (wpSeconds bot)).sum) := by
  intro l
  induction l with
  | nil => intro t k hk; simp at hk
  | cons w l ih =>
    intro t k hk
    cases k with
    | zero =>
      simp [forwardAssign, startTime_setTimes]
    | succ k =>
      have hk2 : k < l.length := by simpa using hk
      simp only [forwardAssign, List.getD_cons_succ, List.take_succ_cons,
        List.map_cons, List.sum_cons]
      rw [ih (t + wpSeconds bot w) k hk2, add_assoc]

theorem forwardAssign_end (bot : BotSchema) :
    ∀ (l : List Waypoint) (t : ℝ) (k : ℕ), k < l.length →
      ((forwardAssign bot t l).getD k default).endTime =
        some (t + ((l.take (k + 1)).map (wpSeconds bot)).sum) := by
  intro l
  induction l with
  | nil => intro t k hk; simp at hk
  | cons w l ih =>
    intro t k hk
    cases k with
    | zero =>
      simp [forwardAssign, endTime_setTimes]
    | succ k =>
      have hk2 : k < l.length := by simpa using hk
      simp only [forwardAssign, List.getD_cons_succ, List.take_succ_cons,
        List.map_cons, List.sum_cons]
      rw [ih (t + wpSeconds bot w) k hk2, add_assoc]

theorem backwardAssign_map (bot : BotSchema) :
    ∀ (l : List Waypoint) (nxt : ℝ),
      (backwardAssign bot nxt l).map (wpSeconds bot) = l.map (wpSeconds bot) := by
  intro l
  induction l with
  | nil => intro nxt; rfl
  | cons w l ih =>
    intro nxt
    simp only [backwardAssign, List.map_cons, wpSeconds_setTimes, ih]

/-- The backward pass makes the earliest processed waypoint, the last of
the reversed prefix, start the summed durations before the target eta. -/
theorem backwardAssign_last_start (bot : BotSchema) :
    ∀ (l : List Waypoint) (nxt : ℝ), l ≠ [] →
      ∃ wl, (backwardAssign bot nxt l).getLast? = some wl ∧
        wl.startTime = some (nxt - (l.map (wpSeconds bot)).sum) := by
  intro l
  induction l with
  | nil => intro nxt h; exact absurd rfl h
  | cons w l ih =>
    intro nxt _
    cases l with
    | nil =>
      refine ⟨w.setTimes (nxt - wpSeconds bot w) nxt, ?_, ?_⟩
      · rfl
      · rw [startTime_setTimes]
        simp
    | cons a l2 =>
      obtain ⟨wl, h1, h2⟩ := ih (nxt - wpSeconds bot w) (by simp)
      refine ⟨wl, ?_, ?_⟩
      · rw [backwardAssign]
        rw [show backwardAssign bot (nxt - wpSeconds bot w) (a :: l2) =
          a.setTimes (nxt - wpSeconds bot w - wpSeconds bot a) (nxt - wpSeconds bot w) ::
            backwardAssign bot (nxt - wpSeconds bot w - wpSeconds bot a) l2 from rfl] at h1 ⊢
        rw [List.getLast?_cons_cons]
        exact h1
      · rw [h2]
        congr 1
        simp only [List.map_cons, List.sum_cons]
        ring

/-- The in-flight durations of the backward-assigned list agree with the
original waypoint list positionwise. -/
theorem etaAssigned_map (bot : BotSchema) (wps : List Waypoint) (idx : ℕ)
    (eta : ℝ) (wtgt : Waypoint) (hget : wps[idx]? = some wtgt) :
    ((wtgt.setTimes eta (eta + wpSeconds bot wtgt) ::
        backwardAssign bot eta ((wps.take idx).reverse)).reverse ++
      wps.drop (idx + 1)).map (wpSeconds bot) = wps.map (wpSeconds bot) := by
  have h1 : wps.take (idx + 1) = wps.take idx ++ [wtgt] := by
    rw [List.take_succ, hget]
    rfl
  conv_rhs => rw [← List.take_append_drop (idx + 1) wps, h1]
  simp [backwardAssign_map, wpSeconds_setTimes]

/-- The head of the backward-assigned list starts the summed prefix
durations before eta. -/
theorem etaAssigned_head (bot : BotSchema) (wps : List Waypoint) (idx : ℕ)
    (eta : ℝ) (wtgt : Waypoint) :
    (((wtgt.setTimes eta (eta + wpSeconds bot wtgt) ::
        backwardAssign bot eta ((wps.take idx).reverse)).reverse ++
      wps.drop (idx + 1)).head?.bind Waypoint.startTime) =
      some (eta - ((wps.take idx).map (wpSeconds bot)).sum) := by
  cases htk : (wps.take idx).reverse with
  | nil =>
    have h0 : wps.take idx = [] := by simpa using congrArg List.reverse htk
    rw [h0]
    simp [backwardAssign, startTime_setTimes]
  | cons a as =>
    obtain ⟨wl, h1, h2⟩ := backwardAssign_last_start bot (a :: as) eta (by simp)
    have hsum : ((a :: as).map (wpSeconds bot)).sum =
        ((wps.take idx).map (wpSeconds bot)).sum := by
      rw [← htk, List.map_reverse, List.sum_reverse]
    have hgl : (wtgt.setTimes eta (eta + wpSeconds bot wtgt) ::
        backwardAssign bot eta (a :: as)).getLast? = some wl := by
      rw [show backwardAssign bot eta (a :: as) =
        a.setTimes (eta - wpSeconds bot a) eta ::
          backwardAssign bot (eta - wpSeconds bot a) as from rfl] at h1 ⊢
      rw [List.getLast?_cons_cons]
      exact h1
    rw [List.head?_append_of_ne_nil]
    · rw [List.head?_reverse, hgl]
      simp only [Option.some_bind]
      rw [h2, hsum]
    · simp

/-- C7: anchoring a plan on a waypoint eta gives that waypoint exactly
the requested start time, and the final forward normalization leaves
every adjacent pair with end time equal to the next start time. -/
theorem C7_waypoint_eta_anchoring (bot : BotSchema) (wps : List Waypoint)
    (eta : ℝ) (W : String) (idx : ℕ)
    (hW : W ≠ "")
    (hidx : firstIdx (fun w => w.wid == W) wps = some idx) :
    ∃ out, approximate_timings_based_on_waypoint_eta bot wps eta W = some out ∧
      (out.getD idx default).startTime = some eta ∧
      ∀ i, i + 1 < out.length →
        (out.getD i default).endTime = (out.getD (i + 1) default).startTime := by
  have hlt := firstIdx_lt_length _ wps idx hidx
  obtain ⟨wtgt, hget⟩ : ∃ w, wps[idx]? = some w :=
    ⟨wps.get ⟨idx, hlt⟩, by simp [List.getElem?_eq_getElem hlt]⟩
  have htake : (wps.take (idx + 1)).reverse = wtgt :: (wps.take idx).reverse := by
    rw [List.take_succ, hget]
    simp
  have hmap := etaAssigned_map bot wps idx eta wtgt hget
  have hheadstart := etaAssigned_head bot wps idx eta wtgt
  have hlen : ((wtgt.setTimes eta (eta + wpSeconds bot wtgt) ::
      backwardAssign bot eta ((wps.take idx).reverse)).reverse ++
      wps.drop (idx + 1)).length = wps.length := by
    have := congrArg List.length hmap
    simpa using this
  have hS : ((((wtgt.setTimes eta (eta + wpSeconds bot wtgt) ::
      backwardAssign bot eta ((wps.take idx).reverse)).reverse ++
      wps.drop (idx + 1)).take idx).map (wpSeconds bot)).sum =
      ((wps.take idx).map (wpSeconds bot)).sum := by
    rw [List.map_take, List.map_take, hmap]
  have hout : approximate_timings_based_on_waypoint_eta bot wps eta W =
      some (forwardAssign bot
        (eta - ((wps.take idx).map (wpSeconds bot)).sum)
        ((wtgt.setTimes eta (eta + wpSeconds bot wtgt) ::
          backwardAssign bot eta ((wps.take idx).reverse)).reverse ++
          wps.drop (idx + 1))) := by
    simp only [approximate_timings_based_on_waypoint_eta, if_neg hW, hidx, htake]
    rw [hheadstart]
    rfl
  refine ⟨_, hout, ?_, ?_⟩
  · rw [forwardAssign_start bot _ _ idx (by rw [hlen]; exact hlt), hS]
    congr 1
    ring
  · intro i hi
    rw [forwardAssign_length] at hi
    have hi1 : i < ((wtgt.setTimes eta (eta + wpSeconds bot wtgt) ::
        backwardAssign bot eta ((wps.take idx).reverse)).reverse ++
        wps.drop (idx + 1)).length := by omega
    have hi2 : i + 1 < ((wtgt.setTimes eta (eta + wpSeconds bot wtgt) ::
        backwardAssign bot eta ((wps.take idx).reverse)).reverse ++
        wps.drop (idx + 1)).length := by omega
    rw [forwardAssign_end bot _ _ i hi1, forwardAssign_start bot _ _ (i + 1) hi2]

/-- C7 witness: the two-waypoint plan with the critical id at index 1. -/
theorem C7_waypoint_eta_anchoring_witness :
    ("critical" : String) ≠ "" ∧
    firstIdx (fun w => w.wid == "critical") wpsC7 = some 1 ∧
    ∃ out, approximate_timings_based_on_waypoint_eta botC5 wpsC7 5000 "critical" =
        some out ∧
      (out.getD 1 default).startTime = some 5000 ∧
      ∀ i, i + 1 < out.length →
        (out.getD i default).endTime = (out.getD (i + 1) default).startTime :=
  ⟨by decide, rfl,
   C7_waypoint_eta_anchoring botC5 wpsC7 5000 "critical" 1 (by decide) rfl⟩

/-! ### C6: stretching -/

/-- A successful launch-side stretch adds at most two waypoints and keeps
the list nonempty. -/
theorem stretchAddStart_some (bot : BotSchema) (lp : Pos) (wps : List Waypoint)
    (sd : ℝ) (a : List Waypoint) (h : stretchAddStart bot lp wps sd = some a) :
    a.length ≤ wps.length + 2 ∧ (wps ≠ [] → a ≠ []) := by
  rw [stretchAddStart.eq_def] at h
  split at h
  · injection h with h
    subst h
    exact ⟨by omega, fun hne => hne⟩
  · split at h
    · simp at h
    · rename_i w0 rest
      split at h
      · simp only [] at h
        split at h
        · split at h
          · simp at h
          · split at h
            · injection h with h
              subst h
              refine ⟨by simp, fun _ => by simp⟩
            · simp at h
        · injection h with h
          subst h
          refine ⟨by simp, fun _ => by simp⟩
      · simp at h

/-- A successful landing-side stretch adds at most two waypoints and
produces a nonempty list. -/
theorem stretchAddEnd_some (bot : BotSchema) (ldp : Pos) (wps : List Waypoint)
    (ed : ℝ) (a : List Waypoint) (h : stretchAddEnd bot ldp wps ed = some a) :
    a.length ≤ wps.length + 2 ∧ (wps ≠ [] → a ≠ []) := by
  rw [stretchAddEnd.eq_def] at h
  split at h
  · injection h with h
    subst h
    exact ⟨by omega, fun hne => hne⟩
  · split at h
    · simp at h
    · rename_i wl revRest heq
      have hlen : wps.length = revRest.length + 1 := by
        have := congrArg List.length heq
        simpa using this
      split at h
      · simp only [] at h
        split at h
        · split at h
          · simp at h
          · split at h
            · injection h with h
              subst h
              refine ⟨by simp; omega, fun _ => by simp⟩
            · simp at h
        · injection h with h
          subst h
          refine ⟨by simp; omega, fun _ => by simp⟩
      · simp at h

/-- A successful waypoint stretch is nonempty and adds at most four
waypoints. -/
theorem stretchWaypoints_some (bot : BotSchema) (lp ldp : Pos)
    (wps : List Waypoint) (sd ed : ℝ) (out : List Waypoint)
    (h : stretchWaypoints bot lp ldp wps sd ed = some out) :
    out ≠ [] ∧ out.length ≤ wps.length + 4 := by
  cases wps with
  | nil => simp [stretchWaypoints] at h
  | cons w0 tail =>
    cases tail with
    | nil =>
      rw [stretchWaypoints] at h
      split at h
      · simp at h
      · simp only [Option.bind_eq_bind, Option.bind_eq_some] at h
        obtain ⟨a1, ha1, h2⟩ := h
        obtain ⟨hl1, hn1⟩ := stretchAddStart_some _ _ _ _ _ ha1
        obtain ⟨hl2, hn2⟩ := stretchAddEnd_some _ _ _ _ _ h2
        refine ⟨hn2 (hn1 (by simp)), ?_⟩
        simp at hl1 hl2 ⊢
        omega
    | cons w1 rest =>
      rw [stretchWaypoints] at h
      split at h
      · injection h with h
        subst h
        constructor
        · split
          · split
            · simp
            · simp
          · simp
        · split
          · rename_i wl wsl revRest heq
            have := congrArg List.length heq
            simp at this
            split
            · simp
              omega
            · simp
          · simp
      · simp only [Option.bind_eq_bind, Option.bind_eq_some] at h
        obtain ⟨a1, ha1, h2⟩ := h
        obtain ⟨hl1, hn1⟩ := stretchAddStart_some _ _ _ _ _ ha1
        obtain ⟨hl2, hn2⟩ := stretchAddEnd_some _ _ _ _ _ h2
        refine ⟨hn2 (hn1 (by simp)), ?_⟩
        simp at hl1 hl2 ⊢
        omega

theorem add_positions_core_length (p : Pos) (l : List Waypoint) :
    (add_positions_core p l).length = l.length := by
  simp [add_positions_core]

/-- Back-filling action positions does not touch the head start time. -/
theorem add_positions_core_head_start (p : Pos) (l : List Waypoint) :
    ((add_positions_core p l).head?.bind Waypoint.startTime) =
      (l.head?.bind Waypoint.startTime) := by
  cases l with
  | nil => rfl
  | cons w l =>
    simp only [add_positions_core, List.mapIdx_cons, List.head?_cons]
    split
    · simp [startTime_setPosition]
    · simp

/-- The forward pass starts the first waypoint at the launch time. -/
theorem forward_head_start (bot : BotSchema) (t : ℝ) (l : List Waypoint)
    (hne : l ≠ []) :
    ((forwardAssign bot t l).head?.bind Waypoint.startTime) = some t := by
  cases l with
  | nil => exact absurd rfl hne
  | cons w l => simp [forwardAssign, startTime_setTimes]

/-- A successful add_positions_to_action_waypoints is the core mapping
applied under the starting tower. -/
theorem add_positions_some (s : Scheduler) (fp fp2 : FlightPlan)
    (h : add_positions_to_action_waypoints s fp = some fp2) :
    ∃ st, get_tower_by_id s fp.starting_tower = some st ∧
      fp2 = { fp with waypoints := add_positions_core st.position fp.waypoints } := by
  rw [add_positions_to_action_waypoints] at h
  split at h
  · split at h
    · simp at h
    · rename_i st heq
      simp only [] at h
      split at h
      · injection h with h
        exact ⟨st, heq, h.symm⟩
      · simp at h
  · simp at h

/-- C6: a successful stretch starts start_delta earlier, its rounded
duration is the old rounded duration plus both whole-second deltas, and
it grows by at most four waypoints. -/
theorem C6_stretch (s : Scheduler) (fp out : FlightPlan) (a b : ℕ)
    (h : stretch_flight_plan s fp (a : ℝ) (b : ℝ) = some out) :
    (∃ os oe ns ne, fp.start_time = some os ∧ fp.end_time = some oe ∧
      out.start_time = some ns ∧ out.end_time = some ne ∧
      ns = os - (a : ℝ) ∧
      pyRound (ne - ns) = pyRound (oe - os) + a + b) ∧
    out.waypoints.length ≤ fp.waypoints.length + 4 := by
  rw [stretch_flight_plan] at h
  simp only [Option.bind_eq_bind, Option.bind_eq_some] at h
  obtain ⟨lt1, hlt1, lt2, hlt2, meta, hmeta, bot, hbot, os, hos, oe, hoe,
    wps1, hwps1, fp2, hfp2, ns, hns, ne, hne2, h⟩ := h
  have hguard : without_microseconds (oe - os) + (a : ℝ) + (b : ℝ) =
      without_microseconds (ne - ns) ∧ out = fp2 := by
    split at h
    · refine ⟨by assumption, ?_⟩
      injection h with h
      exact h.symm
    · simp at h
  obtain ⟨hg, rfl⟩ := hguard
  obtain ⟨hwne, hwlen⟩ := stretchWaypoints_some _ _ _ _ _ _ _ hwps1
  obtain ⟨st, hst, hfp2eq⟩ := add_positions_some _ _ _ hfp2
  have hwaypoints : out.waypoints =
      add_positions_core st.position
        (approximate_timings bot wps1 (os - (a : ℝ))) := by
    rw [hfp2eq]
  have hstart : out.start_time = some (os - (a : ℝ)) := by
    rw [FlightPlan.start_time, hwaypoints, add_positions_core_head_start]
    exact forward_head_start bot _ wps1 hwne
  have hns2 : ns = os - (a : ℝ) := by
    have h2 : some ns = some (os - (a : ℝ)) := hns.symm.trans hstart
    exact Option.some_injective ℝ h2
  refine ⟨⟨os, oe, ns, ne, hos, hoe, hns, hne2, hns2, ?_⟩, ?_⟩
  · have : ((pyRound (oe - os) : ℝ)) + (a : ℝ) + (b : ℝ) =
        ((pyRound (ne - ns) : ℝ)) := hg
    exact_mod_cast this.symm
  · rw [hwaypoints, add_positions_core_length]
    rw [show (approximate_timings bot wps1 (os - (a : ℝ))).length = wps1.length from
      forwardAssign_length bot wps1 _]
    exact hwlen

/-! ### Evaluating the stretch on the concrete two-leg plan -/

theorem truncMicro_intCast (n : ℤ) : truncMicro (n : ℝ) = (n : ℝ) := by
  unfold truncMicro
  rw [show ((n : ℝ) * 1000000) = ((n * 1000000 : ℤ) : ℝ) by push_cast; ring,
    Int.floor_intCast]
  push_cast
  ring

theorem truncMicro_natCast (n : ℕ) : truncMicro (n : ℝ) = (n : ℝ) := by
  unfold truncMicro
  rw [show ((n : ℝ) * 1000000) = (((n * 1000000 : ℕ) : ℤ) : ℝ) by push_cast; ring,
    Int.floor_intCast]
  push_cast
  ring

theorem pyRound_intCast (n : ℤ) : pyRound (n : ℝ) = n := by
  unfold pyRound
  rw [Int.floor_intCast]
  norm_num

/-- When total(i) never exceeds the requirement, the displacement loop of
stretch_flight_plan is exhausted and leaves i = 21. -/
theorem dispSearch_exhaust (total : ℕ → ℝ) (required : ℝ)
    (h : ∀ i, 1 ≤ i → i < 22 → ¬ total i > required) :
    dispSearch total required = 21 := by
  unfold dispSearch
  rw [List.find?_eq_none.mpr]
  · rfl
  · intro i hi
    simp only [List.mem_range'_1] at hi
    simp only [decide_eq_true_eq]
    exact h i hi.1 (by omega)

theorem gwd_w0C6 : get_waypoint_duration botC5.speed w0C6 = 50 := by
  rw [get_waypoint_duration]
  rw [show w0C6.to_pos = (⟨0, 0, 50⟩ : Pos) from rfl,
    show w0C6.from_pos = (⟨0, 0, 0⟩ : Pos) from rfl, distance_z]
  norm_num [Waypoint.is_action, w0C6, botC5, truncMicro]

theorem gwd_w1C6 : get_waypoint_duration botC5.speed w1C6 = 50 := by
  rw [get_waypoint_duration]
  rw [show w1C6.to_pos = (⟨0, 0, 100⟩ : Pos) from rfl,
    show w1C6.from_pos = (⟨0, 0, 50⟩ : Pos) from rfl, distance_z]
  norm_num [Waypoint.is_action, w1C6, botC5, truncMicro]

theorem gwd_w0mC6 : get_waypoint_duration botC5.speed w0mC6 = 30 := by
  rw [get_waypoint_duration]
  rw [show w0mC6.to_pos = (⟨0, 0, 50⟩ : Pos) from rfl,
    show w0mC6.from_pos = (⟨0, 0, 20⟩ : Pos) from rfl, distance_z]
  norm_num [Waypoint.is_action, w0mC6, botC5, truncMicro]

theorem gwd_wlmC6 : get_waypoint_duration botC5.speed wlmC6 = 70 := by
  rw [get_waypoint_duration]
  rw [show wlmC6.to_pos = (⟨0, 0, 120⟩ : Pos) from rfl,
    show wlmC6.from_pos = (⟨0, 0, 50⟩ : Pos) from rfl, distance_z]
  norm_num [Waypoint.is_action, wlmC6, botC5, truncMicro]

theorem gwd_earlyC6 : get_waypoint_duration botC5.speed
    (Waypoint.leg ⟨0, 0, 0⟩ ⟨0, 0, 20⟩ "" true none none) = 20 := by
  rw [get_waypoint_duration]
  rw [show (Waypoint.leg (⟨0, 0, 0⟩ : Pos) ⟨0, 0, 20⟩ "" true none none).to_pos =
      (⟨0, 0, 20⟩ : Pos) from rfl,
    show (Waypoint.leg (⟨0, 0, 0⟩ : Pos) ⟨0, 0, 20⟩ "" true none none).from_pos =
      (⟨0, 0, 0⟩ : Pos) from rfl, distance_z]
  norm_num [Waypoint.is_action, botC5, truncMicro]

theorem gwd_lateC6 : get_waypoint_duration botC5.speed
    (Waypoint.leg ⟨0, 0, 120⟩ ⟨0, 0, 100⟩ "" true none none) = 20 := by
  rw [get_waypoint_duration]
  rw [show (Waypoint.leg (⟨0, 0, 120⟩ : Pos) ⟨0, 0, 100⟩ "" true none none).to_pos =
      (⟨0, 0, 100⟩ : Pos) from rfl,
    show (Waypoint.leg (⟨0, 0, 120⟩ : Pos) ⟨0, 0, 100⟩ "" true none none).from_pos =
      (⟨0, 0, 120⟩ : Pos) from rfl, distance_z]
  norm_num [Waypoint.is_action, botC5, truncMicro]

/-- The launch half of the stretch on the concrete plan: the hop search is
exhausted at 21, the hop reaches height 20, and a 60 s wait is inserted. -/
theorem stretchAddStart_C6 :
    stretchAddStart botC5 ⟨0, 0, 0⟩ [w0C6, w1C6] 60 =
      some [earlyC6, waitLC6, w0mC6, w1C6] := by
  rw [stretchAddStart.eq_def]
  rw [if_neg (by norm_num : ¬ ((60 : ℝ) = 0))]
  simp only [show w0C6.is_leg = true from rfl, eq_self_iff_true, if_true]
  rw [dispSearch_exhaust]
  · rw [show (⟨0, 0, 0⟩ : Pos).liftZ (((21 : ℕ) : ℝ) - 1) = (⟨0, 0, 20⟩ : Pos) from by
      norm_num [Pos.liftZ]]
    rw [show (Waypoint.leg (⟨0, 0, 0⟩ : Pos) ⟨0, 0, 20⟩ "" true none none).to_pos =
      (⟨0, 0, 20⟩ : Pos) from rfl]
    rw [show Waypoint.setLegFrom w0C6 (⟨0, 0, 20⟩ : Pos) = w0mC6 from rfl]
    rw [gwd_earlyC6, gwd_w0mC6, gwd_w0C6]
    rw [if_pos (by norm_num : (60 : ℝ) > 20)]
    rw [if_neg (by norm_num : ¬ ((50 : ℝ) + 60 - 30 - 20 < 0))]
    rw [if_pos (by norm_num : (50 : ℝ) + 60 = 50 + 60 - 30 - 20 + 20 + 30)]
    norm_num [earlyC6, waitLC6]
  · intro i h1 h2
    have hsp : ((botC5.speed : ℤ) : ℝ) = 1 := by norm_num [botC5]
    rw [gwd_w0C6]
    rw [show (⟨0, 0, 0⟩ : Pos).liftZ (i : ℝ) = ⟨0, 0, (i : ℝ)⟩ from by
        norm_num [Pos.liftZ],
      show w0C6.to_pos = (⟨0, 0, 50⟩ : Pos) from rfl, distance_z, hsp]
    simp only [div_one]
    have hle : ((i : ℝ)) < 22 := by exact_mod_cast h2
    have hi50 : |(i : ℝ) - 50| = 50 - (i : ℝ) := by
      rw [abs_of_nonpos (by linarith)]
      ring
    rw [hi50, truncMicro_natCast,
      show (50 - (i : ℝ)) = (((50 - (i : ℤ)) : ℤ) : ℝ) by push_cast; ring,
      truncMicro_intCast]
    push_cast
    linarith

/-- The landing half of the stretch on the concrete plan, symmetric to the
launch half: a 20 s wait before the final descent from height 20. -/
theorem stretchAddEnd_C6 :
    stretchAddEnd botC5 ⟨0, 0, 100⟩ [earlyC6, waitLC6, w0mC6, w1C6] 60 =
      some wps1C6 := by
  rw [stretchAddEnd.eq_def]
  rw [if_neg (by norm_num : ¬ ((60 : ℝ) = 0))]
  rw [show ([earlyC6, waitLC6, w0mC6, w1C6] : List Waypoint).reverse =
    [w1C6, w0mC6, waitLC6, earlyC6] from rfl]
  simp only [show w1C6.is_leg = true from rfl, eq_self_iff_true, if_true]
  rw [dispSearch_exhaust]
  · rw [show (⟨0, 0, 100⟩ : Pos).liftZ (((21 : ℕ) : ℝ) - 1) = (⟨0, 0, 120⟩ : Pos) from by
      norm_num [Pos.liftZ]]
    rw [show (Waypoint.leg (⟨0, 0, 120⟩ : Pos) ⟨0, 0, 100⟩ "" true none none).from_pos =
      (⟨0, 0, 120⟩ : Pos) from rfl]
    rw [show Waypoint.setLegTo w1C6 (⟨0, 0, 120⟩ : Pos) = wlmC6 from rfl]
    rw [gwd_lateC6, gwd_wlmC6, gwd_w1C6]
    rw [if_pos (by norm_num : (60 : ℝ) > 20)]
    rw [if_neg (by norm_num : ¬ ((50 : ℝ) + 60 - 70 - 20 < 0))]
    rw [if_pos (by norm_num : (50 : ℝ) + 60 = 50 + 60 - 70 - 20 + 20 + 70)]
    norm_num [wps1C6, waitEC6, lateC6]
  · intro i h1 h2
    have hsp : ((botC5.speed : ℤ) : ℝ) = 1 := by norm_num [botC5]
    rw [gwd_w1C6]
    rw [show (⟨0, 0, 100⟩ : Pos).liftZ (i : ℝ) = ⟨0, 0, 100 + (i : ℝ)⟩ from rfl,
      show w1C6.from_pos = (⟨0, 0, 50⟩ : Pos) from rfl, distance_z, hsp]
    simp only [div_one]
    have h0 : (0 : ℝ) ≤ (i : ℝ) := Nat.cast_nonneg i
    have hle : ((i : ℝ)) < 22 := by exact_mod_cast h2
    have hi50 : |100 + (i : ℝ) - 50| = (((50 + (i : ℤ)) : ℤ) : ℝ) := by
      rw [abs_of_nonneg (by linarith)]
      push_cast
      ring
    rw [hi50, truncMicro_natCast, truncMicro_intCast]
    push_cast
    linarith

/-- The waypoint mutation of the concrete stretch: hop, wait, shortened
first leg, extended last leg, wait, descent. -/
theorem stretchWaypoints_C6 :
    stretchWaypoints botC5 ⟨0, 0, 0⟩ ⟨0, 0, 100⟩ [w0C6, w1C6] 60 60 =
      some wps1C6 := by
  rw [stretchWaypoints.eq_def]
  simp only []
  rw [if_neg (by decide :
    ¬ ((w0C6.is_leg && w1C6.is_action && (w1C6.actLabel == "waiting")) = true))]
  rw [stretchAddStart_C6]
  rw [show (some [earlyC6, waitLC6, w0mC6, w1C6] >>= fun a =>
      stretchAddEnd botC5 ⟨0, 0, 100⟩ a 60) =
    stretchAddEnd botC5 ⟨0, 0, 100⟩ [earlyC6, waitLC6, w0mC6, w1C6] 60 from rfl]
  exact stretchAddEnd_C6

theorem ws_earlyC6 : wpSeconds botC5 earlyC6 = 20 := by
  rw [wpSeconds]
  rw [show earlyC6.from_pos = (⟨0, 0, 0⟩ : Pos) from rfl,
    show earlyC6.to_pos = (⟨0, 0, 20⟩ : Pos) from rfl, distance_z]
  norm_num [Waypoint.is_action, earlyC6, botC5]

theorem ws_waitLC6 : wpSeconds botC5 waitLC6 = 60 := by
  rw [wpSeconds]
  norm_num [Waypoint.is_action, Waypoint.dur, waitLC6]

theorem ws_w0mC6 : wpSeconds botC5 w0mC6 = 30 := by
  rw [wpSeconds]
  rw [show w0mC6.from_pos = (⟨0, 0, 20⟩ : Pos) from rfl,
    show w0mC6.to_pos = (⟨0, 0, 50⟩ : Pos) from rfl, distance_z]
  norm_num [Waypoint.is_action, w0mC6, botC5]

theorem ws_wlmC6 : wpSeconds botC5 wlmC6 = 70 := by
  rw [wpSeconds]
  rw [show wlmC6.from_pos = (⟨0, 0, 50⟩ : Pos) from rfl,
    show wlmC6.to_pos = (⟨0, 0, 120⟩ : Pos) from rfl, distance_z]
  norm_num [Waypoint.is_action, wlmC6, botC5]

theorem ws_waitEC6 : wpSeconds botC5 waitEC6 = 20 := by
  rw [wpSeconds]
  norm_num [Waypoint.is_action, Waypoint.dur, waitEC6]

theorem ws_lateC6 : wpSeconds botC5 lateC6 = 20 := by
  rw [wpSeconds]
  rw [show lateC6.from_pos = (⟨0, 0, 120⟩ : Pos) from rfl,
    show lateC6.to_pos = (⟨0, 0, 100⟩ : Pos) from rfl, distance_z]
  norm_num [Waypoint.is_action, lateC6, botC5]

/-- The forward re-timing of the stretched list from -60 s. -/
theorem approxC6 : approximate_timings botC5 wps1C6 ((0 : ℝ) - 60) = wps2C6 := by
  rw [approximate_timings]
  rw [show wps1C6 = [earlyC6, waitLC6, w0mC6, wlmC6, waitEC6, lateC6] from rfl]
  simp only [forwardAssign, ws_earlyC6, ws_waitLC6, ws_w0mC6, ws_wlmC6, ws_waitEC6,
    ws_lateC6]
  norm_num [Waypoint.setTimes, earlyC6, waitLC6, w0mC6, wlmC6, waitEC6, lateC6,
    wps2C6]

/-- The stretched plan record produced inside stretch_flight_plan before
position back-filling (C6 witness). -/
noncomputable def midFpC6 : FlightPlan :=
  ⟨wps2C6, fpC6.starting_tower, fpC6.finishing_tower, fpC6.id,
    some ⟨none, some botC5, none, none⟩⟩

/-- The re-timed stretched plan passes validate_flight_plan. -/
theorem validateC6a : validate_flight_plan sC6 midFpC6 :=
  ⟨rfl, rfl, rfl, ⟨⟨"TowerOne", ⟨0, 0, 0⟩, 1, 1⟩, by simp [sC6], rfl⟩, rfl,
    ⟨⟨"TowerTwo", ⟨0, 0, 100⟩, 1, 1⟩, by simp [sC6], rfl⟩, rfl, rfl, rfl, trivial⟩

/-- The position-annotated stretched plan passes validate_flight_plan. -/
theorem validateC6b : validate_flight_plan sC6
    (⟨outWpsC6, midFpC6.starting_tower, midFpC6.finishing_tower, midFpC6.id,
      midFpC6.meta⟩ : FlightPlan) :=
  ⟨rfl, rfl, rfl, ⟨⟨"TowerOne", ⟨0, 0, 0⟩, 1, 1⟩, by simp [sC6], rfl⟩, rfl,
    ⟨⟨"TowerTwo", ⟨0, 0, 100⟩, 1, 1⟩, by simp [sC6], rfl⟩, rfl, rfl, rfl, trivial⟩

/-- Back-filling action positions on the concrete re-timed list. -/
theorem addPosC6 :
    add_positions_to_action_waypoints sC6 midFpC6 = some outC6 := by
  rw [add_positions_to_action_waypoints, if_pos validateC6a]
  rw [show get_tower_by_id sC6 midFpC6.starting_tower =
    some (⟨"TowerOne", ⟨0, 0, 0⟩, 1, 1⟩ : Tower) from rfl]
  simp only []
  rw [show add_positions_core (⟨"TowerOne", ⟨0, 0, 0⟩, 1, 1⟩ : Tower).position
    midFpC6.waypoints = outWpsC6 from rfl]
  rw [if_pos validateC6b]
  rfl

/-- The complete concrete stretch: both 60 s deltas are absorbed into
generated hops and waits, and the duration assertion passes. -/
theorem stretchEvalC6 : stretch_flight_plan sC6 fpC6 60 60 = some outC6 := by
  rw [stretch_flight_plan]
  rw [show get_tower_by_id sC6 fpC6.starting_tower =
      some (⟨"TowerOne", ⟨0, 0, 0⟩, 1, 1⟩ : Tower) from rfl,
    show get_tower_by_id sC6 fpC6.finishing_tower =
      some (⟨"TowerTwo", ⟨0, 0, 100⟩, 1, 1⟩ : Tower) from rfl,
    show fpC6.meta = some (⟨none, some botC5, none, none⟩ : FlightPlanMeta) from rfl,
    show fpC6.start_time = some (0 : ℝ) from rfl,
    show fpC6.end_time = some (100 : ℝ) from rfl,
    show fpC6.waypoints = [w0C6, w1C6] from rfl]
  simp only [Option.bind_eq_bind, Option.some_bind]
  rw [stretchWaypoints_C6]
  simp only [Option.some_bind]
  rw [approxC6]
  rw [show (⟨wps2C6, fpC6.starting_tower, fpC6.finishing_tower, fpC6.id,
      some ⟨none, some botC5, none, none⟩⟩ : FlightPlan) = midFpC6 from rfl]
  rw [addPosC6]
  simp only [Option.some_bind]
  rw [show outC6.start_time = some ((-60 : ℝ)) from rfl,
    show outC6.end_time = some ((160 : ℝ)) from rfl]
  simp only [Option.some_bind]
  rw [if_pos]
  rw [without_microseconds, without_microseconds,
    show ((100 : ℝ) - 0) = ((100 : ℤ) : ℝ) by norm_num,
    show ((160 : ℝ) - (-60)) = ((220 : ℤ) : ℝ) by norm_num,
    pyRound_intCast, pyRound_intCast]
  norm_num

/-- C6 witness: stretching the concrete two-leg plan by (60 s, 60 s)
succeeds, starts 60 s earlier, adds 120 rounded seconds of duration, and
adds four waypoints. -/
theorem C6_stretch_witness :
    stretch_flight_plan sC6 fpC6 ((60 : ℕ) : ℝ) ((60 : ℕ) : ℝ) = some outC6 ∧
    ((∃ os oe ns ne, fpC6.start_time = some os ∧ fpC6.end_time = some oe ∧
        outC6.start_time = some ns ∧ outC6.end_time = some ne ∧
        ns = os - ((60 : ℕ) : ℝ) ∧
        pyRound (ne - ns) = pyRound (oe - os) + (60 : ℕ) + (60 : ℕ)) ∧
      outC6.waypoints.length ≤ fpC6.waypoints.length + 4) := by
  have h : stretch_flight_plan sC6 fpC6 ((60 : ℕ) : ℝ) ((60 : ℕ) : ℝ) = some outC6 := by
    rw [show (((60 : ℕ) : ℝ)) = (60 : ℝ) by norm_num]
    exact stretchEvalC6
  exact ⟨h, C6_stretch sC6 fpC6 outC6 60 60 h⟩

end Launcher
